import Mathlib

set_option linter.unusedVariables false
set_option maxRecDepth 10000

/-!
# Krishimitra client-side scripts: a shallow embedding

This file embeds, in Lean 4, the JavaScript sources of the Krishimitra
repository:

* the two one-off HTML-patching Node scripts (`fix_market_prices.js`
  lines 1–279, and the unnamed script patching `fetchMarketPrices`),
  modelled as pure functions from the template-file content to the
  optionally written new content;
* the runtime service layer (`fix_market_prices.js` lines 284–767):
  the four service handlers `loadMarketPrices`, `loadWeatherData`,
  `loadGovernmentSchemes`, `loadCropRecommendations`, the dispatcher
  `loadServiceData`, and the navigation function `showService`.

JavaScript values parsed from JSON are modelled by the inductive `JsVal`
(numbers as `Int`; the scripts only format and compare them).  The DOM is
modelled as an association list from element id to `innerHTML`.  A handler
invocation is a pure function of the DOM, the outcome of the `fetch`
(rejection, `response.json()` rejection, or a parsed body), and the current
time (`Date.now()`, in milliseconds); it returns the new DOM together with
the ordered trace of observable events (innerHTML assignments and the
issued fetch).  Exceptions inside a handler body are modelled with
`Except Unit`; the `try`/`catch` of each handler is explicit in its
definition.  Browser built-ins (`toLocaleString`, date formatting) are
modelled by deterministic Lean functions, noted at their definitions.
-/

namespace Krishimitra

/-- A JavaScript value as produced by `response.json()` (plus `undefined`,
which arises from missing-property accesses).  Numbers are modelled as
integers: the scripts only interpolate, locale-format and order-compare
them. -/
inductive JsVal where
  | undefined : JsVal
  | null : JsVal
  | bool : Bool → JsVal
  | num : Int → JsVal
  | str : String → JsVal
  | arr : List JsVal → JsVal
  | obj : List (String × JsVal) → JsVal
deriving Repr

/-- JavaScript truthiness: `undefined`, `null`, `false`, `0` and the empty
string are falsy; every array and object (including `[]` and `{}`) is
truthy. -/
def truthy : JsVal → Bool
  | .undefined => false
  | .null => false
  | .bool b => b
  | .num n => n != 0
  | .str s => s ≠ ""
  | .arr _ => true
  | .obj _ => true

/-- The value of the JavaScript expression `a || b`. -/
def jsOrV (a b : JsVal) : JsVal :=
  if truthy a then a else b

/-- Property access `v.f`.  On `undefined` and `null` it throws a
`TypeError`; on an object it returns the named field (first binding) or
`undefined`; on an array the access is modelled for the one property the
scripts read, `length`; on a string likewise; on the remaining primitives
it returns `undefined` (the scripts read no built-in properties of
them). -/
def jsGet (v : JsVal) (f : String) : Except Unit JsVal :=
  match v with
  | .undefined => .error ()
  | .null => .error ()
  | .obj fields =>
      match fields.lookup f with
      | some w => .ok w
      | none => .ok .undefined
  | .arr xs => if f = "length" then .ok (.num xs.length) else .ok .undefined
  | .str s => if f = "length" then .ok (.num s.length) else .ok .undefined
  | _ => .ok .undefined

/-- Optional-chaining access `v?.f`: `undefined` when `v` is nullish,
otherwise a plain property access (which can then no longer throw). -/
def jsGetOpt (v : JsVal) (f : String) : JsVal :=
  match v with
  | .undefined => .undefined
  | .null => .undefined
  | .obj fields =>
      match fields.lookup f with
      | some w => w
      | none => .undefined
  | .arr xs => if f = "length" then .num xs.length else .undefined
  | .str s => if f = "length" then .num s.length else .undefined
  | _ => .undefined

/-- The test `v.length > 0` performed on an already-truthy `v` (so the
`length` access cannot throw): a missing `length` gives `undefined > 0`,
which is `false`. -/
def jsLenPos (v : JsVal) : Bool :=
  match v with
  | .arr xs => decide (0 < xs.length)
  | .str s => decide (0 < s.length)
  | .obj fields =>
      match fields.lookup "length" with
      | some (.num n) => decide (0 < n)
      | _ => false
  | _ => false

/-- Iteration `v.forEach(...)` / `v.map(...)`: the element list when `v`
is an array, a thrown `TypeError` otherwise. -/
def jsElems (v : JsVal) : Except Unit (List JsVal) :=
  match v with
  | .arr xs => .ok xs
  | _ => .error ()

/-- Fuelled worker for `jsToStr`: the recursion through nested arrays is
made structural on a fuel argument. -/
def jsToStrFuel (fuel : Nat) (v : JsVal) : String :=
  match v with
  | .undefined => "undefined"
  | .null => "null"
  | .bool b => cond b "true" "false"
  | .num n => toString n
  | .str s => s
  | .obj _ => "[object Object]"
  | .arr xs =>
      match fuel with
      | 0 => ""
      | k + 1 =>
          String.intercalate "," (xs.map fun e =>
            match e with
            | .undefined => ""
            | .null => ""
            | w => jsToStrFuel k w)
termination_by structural fuel

/-- String interpolation `${v}` (JavaScript `ToString`).  Inside an
array's `join`, `null` and `undefined` elements print as the empty
string.  The recursion through nested arrays is fuelled, modelling the
engine's bounded call stack (JavaScript engines abort `Array.prototype.join`
with a `RangeError` at nesting depths far below this bound). -/
def jsToStr (v : JsVal) : String := jsToStrFuel 100000 v

/-- Model of `Number.prototype.toLocaleString(\x27hi-IN\x27)` on the
integers the scripts format (a deterministic stand-in for the browser's
locale grouping). -/
def numToLocaleHiIN (n : Int) : String := toString n

/-- Method call `v.toLocaleString(\x27hi-IN\x27)`: throws on `undefined`
and `null`, locale-formats a number, and falls back to `ToString` for the
remaining values. -/
def jsToLocale (v : JsVal) : Except Unit String :=
  match v with
  | .undefined => .error ()
  | .null => .error ()
  | .num n => .ok (numToLocaleHiIN n)
  | w => .ok (jsToStr w)

/-- Model of `new Date(v).toLocaleString(\x27hi-IN\x27)`: a number is a
millisecond timestamp formatted deterministically; the other values the
scripts can feed it print as an invalid date. -/
def jsDateString (v : JsVal) : String :=
  match v with
  | .num n => "date(" ++ toString n ++ ")"
  | _ => "Invalid Date"

/-- The comparison `v >= 0` (JavaScript coerces with `ToNumber`;
`undefined` gives `NaN`, hence `false`; `null` coerces to `0`).  The
scripts use it only to pick a colour. -/
def jsGeZero (v : JsVal) : Bool :=
  match v with
  | .num n => decide (0 ≤ n)
  | .null => true
  | .bool _ => true
  | _ => false

/-- Strict equality `v === s` against a string literal. -/
def jsEqStr (v : JsVal) (s : String) : Bool :=
  match v with
  | .str t => t = s
  | _ => false

end Krishimitra

namespace Krishimitra

/-!
## The two HTML-patching scripts

`fix_market_prices.js` (lines 1–279) and the unnamed script both read
`core/templates/index.html`, locate a function by `indexOf` on two marker
strings, and, when both markers are found, write back
`content.substring(0, start) + newFunction + content.substring(end)`;
when either `indexOf` returns `-1` they only log and do not write.  The
file content is modelled as a list of characters and a script as a
function returning `some` written content, or `none` when no write is
performed.
-/

/-- JavaScript `content.indexOf(pat)`: the least index at which `pat` occurs as a
substring, `none` when it does not occur (JavaScript's `-1`). -/
def firstIdxOf (pat : List Char) : List Char -> Option Nat
  | [] => if pat.isPrefixOf ([] : List Char) then some 0 else none
  | c :: rest =>
      if pat.isPrefixOf (c :: rest) then some 0
      else (firstIdxOf pat rest).map (· + 1)

/-- Predicate: `pat` occurs in `s` at position `i`. -/
def OccursAt (pat s : List Char) (i : Nat) : Prop :=
  pat.isPrefixOf (s.drop i) = true

instance (pat s : List Char) (i : Nat) : Decidable (OccursAt pat s i) := by
  unfold OccursAt; infer_instance

/-- Predicate: `i` is the position of the first occurrence of `pat` in `s`. -/
def IsFirstOccurrence (pat s : List Char) (i : Nat) : Prop :=
  OccursAt pat s i ∧ ∀ j < i, ¬ OccursAt pat s j

instance (pat s : List Char) (i : Nat) : Decidable (IsFirstOccurrence pat s i) := by
  unfold IsFirstOccurrence; infer_instance

/-- Start marker of `fix_market_prices.js`:
`content.indexOf(...)` for the `loadMarketPrices` function header. -/
def mpStartMarker : List Char := "async function loadMarketPrices() \x7b".toList

/-- Start marker of the unnamed patch script: the `fetchMarketPrices`
function header. -/
def fetchStartMarker : List Char := "async function fetchMarketPrices() \x7b".toList

/-- End marker of both patch scripts: the `searchMandiByLocation`
function header. -/
def mandiMarker : List Char := "async function searchMandiByLocation() \x7b".toList

/-- The replacement text (`newFunction`) of `fix_market_prices.js`,
the value of its template literal (lines 15–269). -/
def mpReplacement : List Char :=
  ("async function loadMarketPrices() \x7b\n        try \x7b\n            const container = document.getElementById('pricesData');\n            container.innerHTML = '<div class=\"loading\">बाजार भाव लोड हो रहे हैं...</div>';\n            \n            const response = await fetch(`/api/realtime-gov/market_prices/?location=$\x7bcurrentLocation\x7d&latitude=$\x7bcurrentLatitude\x7d&longitude=$\x7bcurrentLongitude\x7d`);\n            const data = await response.json();\n            \n            console.log('Market Prices Data:', data);\n            \n            if (data.status === 'success' && data.crops && data.crops.length > 0) \x7b\n                // Store data globally for mandi selection\n                window.allCropsData = data;\n                \n                // Convert crops array to marketData format for compatibility\n                const marketData = \x7b\x7d;\n                data.crops.forEach(crop => \x7b\n                    marketData[crop.name] = crop;\n                \x7d);\n                \n                // Display all crops with different prices\n                displayAllCropsWithDifferentPrices(data);\n            \x7d else \x7b\n                container.innerHTML = '<div class=\"error\">बाजार भाव डेटा उपलब्ध नहीं है</div>';\n            \x7d\n        \x7d catch (error) \x7b\n            console.error('Market prices load error:', error);\n            document.getElementById('pricesData').innerHTML = '<div class=\"error\">बाजार भाव लोड करने में त्रुटि</div>';\n        \x7d\n    \x7d\n\n    function displayAllCropsWithDifferentPrices(data) \x7b\n        const container = document.getElementById('pricesData');\n        \n        // Create mandi dropdown options\n        const mandiOptions = data.nearest_mandis ? \n            data.nearest_mandis.map(mandi => `<option value=\"$\x7bmandi\x7d\">$\x7bmandi\x7d</option>`).join('') : '';\n        \n        container.innerHTML = `\n            <div class=\"real-time-header\">\n                <h4>💰 बाजार भाव - $\x7bdata.location\x7d</h4>\n                <p class=\"data-source\">📊 स्रोत: $\x7bdata.sources ? data.sources.join(', ') : 'Government APIs'\x7d</p>\n                <p class=\"timestamp\">🕒 अंतिम अपडेट: $\x7bnew Date(data.timestamp).toLocaleString('hi-IN')\x7d</p>\n                <p class=\"reliability\">🎯 विश्वसनीयता: $\x7bMath.round((data.data_reliability || 0.9) * 100)\x7d%</p>\n            </div>\n            \n            <div class=\"mandi-search-container\">\n                <h5>🔍 मंडी और फसल खोजें</h5>\n                <div class=\"search-boxes-container\">\n                    <div class=\"search-box\">\n                        <label>📍 मंडी चुनें</label>\n                        <select id=\"mandiSelect\" class=\"form-control\" onchange=\"selectMandiFromDropdown()\">\n                            <option value=\"\">निकटतम मंडी चुनें...</option>\n                            $\x7bmandiOptions\x7d\n                        </select>\n                    </div>\n                    <div class=\"search-box\">\n                        <label>🌾 फसल खोजें</label>\n                        <input type=\"text\" id=\"cropSearchInput\" placeholder=\"फसल का नाम टाइप करें\" class=\"form-control\">\n                        <button onclick=\"searchCropFromSelectedMandi()\" class=\"btn btn-success\">खोजें</button>\n                    </div>\n                </div>\n                <div class=\"current-mandi-display\">\n                    <span>🏪 वर्तमान: <span id=\"currentMandiDisplay\">सभी मंडियों का औसत</span></span>\n                    <button onclick=\"resetMandiSelection()\" class=\"btn btn-secondary btn-sm\">रीसेट</button>\n                </div>\n            </div>\n            \n            <div class=\"mandi-prices-grid\">\n                $\x7bdata.crops.map(crop => `\n                    <div class=\"mandi-price-square\">\n                        <div class=\"square-header\">\n                            <h6>🌾 $\x7bcrop.name\x7d</h6>\n                            <span class=\"trend-icon\">📈</span>\n                        </div>\n                        <div class=\"square-content\">\n                            <div class=\"price-main\">\n                                <span class=\"current-price\">₹$\x7bcrop.current_price?.toLocaleString('hi-IN') || 'N/A'\x7d</span>\n                                <span class=\"price-unit\">/quintal</span>\n                            </div>\n                            <div class=\"price-details\">\n                                <div class=\"detail-row\">\n                                    <span class=\"label\">MSP:</span>\n                                    <span class=\"value\">₹$\x7bcrop.msp?.toLocaleString('hi-IN') || 'N/A'\x7d</span>\n                                </div>\n                                <div class=\"detail-row\">\n                                    <span class=\"label\">लाभ:</span>\n                                    <span class=\"value profit\">₹$\x7bcrop.profit_margin?.toLocaleString('hi-IN') || 'N/A'\x7d</span>\n                                </div>\n                                <div class=\"detail-row\">\n                                    <span class=\"label\">%:</span>\n                                    <span class=\"value\">$\x7bcrop.profit_percentage || 'N/A'\x7d%</span>\n                                </div>\n                            </div>\n                            <div class=\"mandi-info\">\n                                <span class=\"mandi-name\">$\x7bcrop.mandi || 'N/A'\x7d</span>\n                                <span class=\"date\">$\x7bcrop.date || new Date().toLocaleDateString('hi-IN')\x7d</span>\n                            </div>\n                        </div>\n                    </div>\n                `).join('')\x7d\n            </div>\n        `;\n    \x7d\n\n    // Global variables for mandi selection\n    let selectedMandi = null;\n\n    // Function to select mandi from dropdown\n    async function selectMandiFromDropdown() \x7b\n        const mandiSelect = document.getElementById('mandiSelect');\n        const selectedValue = mandiSelect.value;\n        const currentMandiDisplay = document.getElementById('currentMandiDisplay');\n        \n        if (selectedValue) \x7b\n            selectedMandi = selectedValue;\n            currentMandiDisplay.textContent = selectedValue;\n            \n            // Fetch prices for selected mandi\n            await fetchMandiPrices(selectedValue);\n        \x7d else \x7b\n            selectedMandi = null;\n            currentMandiDisplay.textContent = 'सभी मंडियों का औसत';\n            if (window.allCropsData) \x7b\n                displayAllCropsWithDifferentPrices(window.allCropsData);\n            \x7d\n        \x7d\n    \x7d\n\n    // Function to fetch prices for specific mandi\n    async function fetchMandiPrices(mandiName) \x7b\n        try \x7b\n            const container = document.getElementById('pricesData');\n            container.innerHTML = '<div class=\"loading\">मंडी की कीमतें लोड हो रही हैं...</div>';\n            \n            const response = await fetch(`/api/realtime-gov/mandi_prices/?mandi=$\x7bencodeURIComponent(mandiName)\x7d&location=$\x7bcurrentLocation\x7d`);\n            const data = await response.json();\n            \n            if (data.status === 'success' && data.crops && data.crops.length > 0) \x7b\n                displayMandiSpecificCrops(data.crops, mandiName);\n            \x7d else \x7b\n                container.innerHTML = '<div class=\"error\">इस मंडी के लिए कीमत जानकारी उपलब्ध नहीं है</div>';\n            \x7d\n        \x7d catch (error) \x7b\n            console.error('Error fetching mandi prices:', error);\n            document.getElementById('pricesData').innerHTML = '<div class=\"error\">मंडी कीमतें लोड करने में त्रुटि</div>';\n        \x7d\n    \x7d\n\n    // Function to display mandi-specific crops\n    function displayMandiSpecificCrops(crops, mandiName) \x7b\n        const container = document.getElementById('pricesData');\n        \n        container.innerHTML = `\n            <div class=\"real-time-header\">\n                <h4>💰 मंडी: $\x7bmandiName\x7d</h4>\n                <p class=\"data-source\">📊 स्रोत: Real-time Mandi Data</p>\n                <p class=\"timestamp\">🕒 अंतिम अपडेट: $\x7bnew Date().toLocaleString('hi-IN')\x7d</p>\n            </div>\n            \n            <div class=\"mandi-prices-grid\">\n                $\x7bcrops.map(crop => `\n                    <div class=\"mandi-price-square\">\n                        <div class=\"square-header\">\n                            <h6>🌾 $\x7bcrop.name\x7d</h6>\n                            <span class=\"trend-icon\">📈</span>\n                        </div>\n                        <div class=\"square-content\">\n                            <div class=\"price-main\">\n                                <span class=\"current-price\">₹$\x7bcrop.current_price?.toLocaleString('hi-IN') || 'N/A'\x7d</span>\n                                <span class=\"price-unit\">/quintal</span>\n                            </div>\n                            <div class=\"price-details\">\n                                <div class=\"detail-row\">\n                                    <span class=\"label\">MSP:</span>\n                                    <span class=\"value\">₹$\x7bcrop.msp?.toLocaleString('hi-IN') || 'N/A'\x7d</span>\n                                </div>\n                                <div class=\"detail-row\">\n                                    <span class=\"label\">लाभ:</span>\n                                    <span class=\"value profit\">₹$\x7bcrop.profit_margin?.toLocaleString('hi-IN') || 'N/A'\x7d</span>\n                                </div>\n                                <div class=\"detail-row\">\n                                    <span class=\"label\">%:</span>\n                                    <span class=\"value\">$\x7bcrop.profit_percentage || 'N/A'\x7d%</span>\n                                </div>\n                            </div>\n                            <div class=\"mandi-info\">\n                                <span class=\"mandi-name\">$\x7bcrop.mandi || mandiName\x7d</span>\n                                <span class=\"date\">$\x7bcrop.date || new Date().toLocaleDateString('hi-IN')\x7d</span>\n                            </div>\n                        </div>\n                    </div>\n                `).join('')\x7d\n            </div>\n        `;\n    \x7d\n\n    // Function to search crop from selected mandi\n    async function searchCropFromSelectedMandi() \x7b\n        const cropInput = document.getElementById('cropSearchInput');\n        const cropName = cropInput.value.trim().toLowerCase();\n        \n        if (!cropName) \x7b\n            alert('कृपया फसल का नाम दर्ज करें');\n            return;\n        \x7d\n        \n        if (!selectedMandi) \x7b\n            alert('पहले मंडी चुनें');\n            return;\n        \x7d\n        \n        try \x7b\n            const container = document.getElementById('pricesData');\n            container.innerHTML = '<div class=\"loading\">फसल की कीमत खोज रहे हैं...</div>';\n            \n            const response = await fetch(`/api/realtime-gov/mandi_prices/?mandi=$\x7bencodeURIComponent(selectedMandi)\x7d&location=$\x7bcurrentLocation\x7d`);\n            const data = await response.json();\n            \n            if (data.status === 'success' && data.crops && data.crops.length > 0) \x7b\n                const foundCrop = data.crops.find(crop => \n                    crop.name.toLowerCase().includes(cropName)\n                );\n                \n                if (foundCrop) \x7b\n                    displayMandiSpecificCrops([foundCrop], selectedMandi);\n                \x7d else \x7b\n                    container.innerHTML = `<div class=\"error\">$\x7bselectedMandi\x7d में \"$\x7bcropName\x7d\" फसल नहीं मिली</div>`;\n                \x7d\n            \x7d else \x7b\n                container.innerHTML = '<div class=\"error\">इस मंडी के लिए कीमत जानकारी उपलब्ध नहीं है</div>';\n            \x7d\n        \x7d catch (error) \x7b\n            console.error('Error searching crop:', error);\n            document.getElementById('pricesData').innerHTML = '<div class=\"error\">फसल खोज में त्रुटि</div>';\n        \x7d\n    \x7d\n\n    // Function to reset mandi selection\n    function resetMandiSelection() \x7b\n        const mandiSelect = document.getElementById('mandiSelect');\n        const currentMandiDisplay = document.getElementById('currentMandiDisplay');\n        const cropInput = document.getElementById('cropSearchInput');\n        \n        mandiSelect.value = '';\n        selectedMandi = null;\n        currentMandiDisplay.textContent = 'सभी मंडियों का औसत';\n        cropInput.value = '';\n        \n        if (window.allCropsData) \x7b\n            displayAllCropsWithDifferentPrices(window.allCropsData);\n        \x7d\n    \x7d\n    \n    // Mandi Search Functions").toList

/-- The replacement text (`newFunction`) of the unnamed patch script,
the value of its template literal. -/
def fetchReplacement : List Char :=
  ("async function fetchMarketPrices() \x7b\n        try \x7b\n            const container = document.getElementById('pricesData');\n            container.innerHTML = '<div class=\"loading\">बाजार भाव लोड हो रहे हैं...</div>';\n            \n            const response = await fetch(`/api/realtime-gov/market_prices/?location=$\x7bcurrentLocation\x7d&latitude=$\x7bcurrentLatitude\x7d&longitude=$\x7bcurrentLongitude\x7d`);\n            const data = await response.json();\n            \n            // Convert crops array to marketData format for compatibility\n            const marketData = \x7b\x7d;\n            if (data.crops && data.crops.length > 0) \x7b\n                data.crops.forEach(crop => \x7b\n                    marketData[crop.name] = crop;\n                \x7d);\n            \x7d\n            \n            // Use the new displayAllCrops function\n            if (marketData && Object.keys(marketData).length > 0) \x7b\n                displayAllCrops(data);\n            \x7d else \x7b\n                container.innerHTML = '<div class=\"error\">बाजार भाव डेटा उपलब्ध नहीं है</div>';\n            \x7d\n        \x7d catch (error) \x7b\n            console.error('Market prices fetch error:', error);\n            document.getElementById('pricesData').innerHTML = '<div class=\"error\">बाजार भाव लोड करने में त्रुटि</div>';\n        \x7d\n    \x7d").toList

/-- The patching logic of `fix_market_prices.js` (lines 1–279): the
content written back to `core/templates/index.html`, or `none` when either
marker is missing and no write happens. -/
def fixMarketPricesScript (content : List Char) : Option (List Char) :=
  let functionStart := firstIdxOf mpStartMarker content
  let functionEnd := firstIdxOf mandiMarker content
  match functionStart, functionEnd with
  | some s, some e => some (content.take s ++ mpReplacement ++ content.drop e)
  | _, _ => none

/-- The patching logic of the unnamed script (patching
`fetchMarketPrices`), in the same shape. -/
def fixFetchScript (content : List Char) : Option (List Char) :=
  let oldFunctionStart := firstIdxOf fetchStartMarker content
  let oldFunctionEnd := firstIdxOf mandiMarker content
  match oldFunctionStart, oldFunctionEnd with
  | some s, some e => some (content.take s ++ fetchReplacement ++ content.drop e)
  | _, _ => none

end Krishimitra

namespace Krishimitra

/-!
## The runtime service layer

Embeddings of the enhanced service-loading script (`fix_market_prices.js`
lines 284–767).  The DOM visible to the handlers is an association list
from element id to `innerHTML`; `document.getElementById` is `List.lookup`
(first match), and writing `container.innerHTML` updates the first binding
of that id.  A handler observes one `fetch` outcome and the current time,
and produces the new DOM together with the ordered list of observable
events (innerHTML writes, in program order, and the issued fetch request).
-/

/-- The DOM as visible to the scripts: element id, current `innerHTML`. -/
abbrev Dom := List (String × String)

/-- JavaScript `document.getElementById(id)`: the first element carrying
the id (its `innerHTML`), `none` for `null`. -/
def getElementById (dom : Dom) (id : String) : Option String :=
  match dom with
  | [] => none
  | (k, v) :: rest => if k = id then some v else getElementById rest id

/-- Assignment `container.innerHTML = html` to the first element with the
given id. -/
def setInnerHTML (dom : Dom) (id html : String) : Dom :=
  match dom with
  | [] => []
  | (k, v) :: rest =>
      if k = id then (k, html) :: rest else (k, v) :: setInnerHTML rest id html

/-- Observable events of a handler invocation, in program order. -/
inductive Event where
  | setHTML : String → String → Event
  | fetch : String → Event
deriving DecidableEq, Repr

/-- The script-level globals `currentLocation`, `currentLatitude`,
`currentLongitude`.  The two numeric globals only ever appear interpolated
into URLs, so they are modelled by their string images. -/
structure Globals where
  location : String
  latitude : String
  longitude : String
deriving DecidableEq, Repr

/-- The initial values of the globals (`Delhi`, `28.7041`, `77.1025`). -/
def initialGlobals : Globals :=
  { location := "Delhi", latitude := "28.7041", longitude := "77.1025" }

/-- Outcome of the `fetch` + `response.json()` pair as observed by a
handler: the fetch rejecting, `response.json()` rejecting, or a parsed
body. -/
inductive FetchOutcome where
  | reject : FetchOutcome
  | jsonError : FetchOutcome
  | ok : JsVal → FetchOutcome

/-- The comparison `v >= n` against a numeric literal (JavaScript coerces
with `ToNumber`; `undefined` compares false, `null` as `0`, booleans as
`0`/`1`). -/
def jsGeNum (v : JsVal) (n : Int) : Bool :=
  match v with
  | .num m => decide (n ≤ m)
  | .null => decide (n ≤ 0)
  | .bool b => decide (n ≤ (cond b 1 0))
  | _ => false


/-- The market-prices endpoint URL (line 301 of the source). -/
def mpUrl (g : Globals) : String :=
  "/api/market-prices/?location="
  ++ g.location
  ++ "&latitude="
  ++ g.latitude
  ++ "&longitude="
  ++ g.longitude
  ++ "&v=v2.0"

/-- The weather endpoint URL (line 406). -/
def weatherUrl (g : Globals) : String :=
  "/api/weather/?location="
  ++ g.location
  ++ "&latitude="
  ++ g.latitude
  ++ "&longitude="
  ++ g.longitude

/-- The government-schemes endpoint URL (line 481). -/
def schemesUrl (g : Globals) : String :=
  "/api/government-schemes/?location="
  ++ g.location

/-- The advisories endpoint URL (line 539). -/
def advisoriesUrl (g : Globals) : String :=
  "/api/advisories/?location="
  ++ g.location


/-- Loading placeholder of `loadMarketPrices`. -/
def mpLoadingMsg : String :=
  "<div class=\"loading\">बाजार भाव लोड हो रहे हैं...</div>"

/-- Data-unavailable message of `loadMarketPrices`. -/
def mpUnavailableMsg : String :=
  "<div style=\"padding: 20px; text-align: center; color: #666;\">बाजार भाव डेटा उपलब्ध नहीं है</div>"

/-- Error message of `loadMarketPrices`. -/
def mpErrorMsg : String :=
  "<div style=\"padding: 20px; text-align: center; color: #dc3545;\">बाजार भाव लोड करने में त्रुटि</div>"

/-- Loading placeholder of `loadWeatherData`. -/
def weatherLoadingMsg : String :=
  "<div class=\"loading\">मौसम डेटा लोड हो रहा है...</div>"

/-- Data-unavailable message of `loadWeatherData`. -/
def weatherUnavailableMsg : String :=
  "<div style=\"padding: 20px; text-align: center; color: #666;\">मौसम डेटा उपलब्ध नहीं है</div>"

/-- Error message of `loadWeatherData`. -/
def weatherErrorMsg : String :=
  "<div style=\"padding: 20px; text-align: center; color: #dc3545;\">मौसम डेटा लोड करने में त्रुटि</div>"

/-- Loading placeholder of `loadGovernmentSchemes`. -/
def schemesLoadingMsg : String :=
  "<div class=\"loading\">योजनाएं लोड हो रही हैं...</div>"

/-- Data-unavailable message of `loadGovernmentSchemes`. -/
def schemesUnavailableMsg : String :=
  "<div style=\"padding: 20px; text-align: center; color: #666;\">योजनाएं उपलब्ध नहीं हैं</div>"

/-- Error message of `loadGovernmentSchemes`. -/
def schemesErrorMsg : String :=
  "<div style=\"padding: 20px; text-align: center; color: #dc3545;\">योजनाएं लोड करने में त्रुटि</div>"

/-- Loading placeholder of `loadCropRecommendations`. -/
def crLoadingMsg : String :=
  "<div class=\"loading\">फसल सुझाव लोड हो रहे हैं...</div>"

/-- Data-unavailable message of `loadCropRecommendations`. -/
def crUnavailableMsg : String :=
  "<div style=\"padding: 20px; text-align: center; color: #666;\">फसल सुझाव उपलब्ध नहीं हैं</div>"

/-- Error message of `loadCropRecommendations`. -/
def crErrorMsg : String :=
  "<div style=\"padding: 20px; text-align: center; color: #dc3545;\">फसल सुझाव लोड करने में त्रुटि</div>"


/-- The header part of the market-prices markup (source lines 311–318),
including `new Date(data.timestamp || Date.now()).toLocaleString(\x27hi-IN\x27)`:
the invocation time `now` is used when the body carries no truthy
`timestamp`. -/
def mpHeader (data : JsVal) (now : Nat) : Except Unit String := do
  let loc ← jsGet data "location"
  let ds ← jsGet data "data_source"
  let ts ← jsGet data "timestamp"
  pure ("\n                <div class=\"real-time-header\" style=\"margin-bottom: 20px;\">\n                    <h4 style=\"color: #2d5016;\">💰 बाजार भाव - "
        ++ jsToStr loc
        ++ "</h4>\n                    <p style=\"color: #666; margin: 5px 0;\">📊 स्रोत: "
        ++ jsToStr (jsOrV ds (JsVal.str "Agmarknet + e-NAM"))
        ++ "</p>\n                    <p style=\"color: #666; margin: 5px 0;\">🕒 अंतिम अपडेट: "
        ++ jsDateString (jsOrV ts (JsVal.num now))
        ++ "</p>\n                </div>\n                <div style=\"display: grid; grid-template-columns: repeat(auto-fill, minmax(250px, 1fr)); gap: 20px; margin-top: 20px;\">\n            ")

/-- One crop card of the market-prices markup (source lines 320–352). -/
def mpCropCard (crop : JsVal) : Except Unit String := do
  let profit ← jsGet crop "profit"
  let profitColor := if jsGeZero profit then "#28a745" else "#dc3545"
  let nameH ← jsGet crop "crop_name_hindi"
  let name ← jsGet crop "crop_name"
  let trend ← jsGet crop "trend"
  let trendIcon :=
    if jsEqStr trend "बढ़ रहा" then "📈"
    else if jsEqStr trend "गिर रहा" then "📉" else "📊"
  let cp ← jsGet crop "current_price"
  let cpS ← jsToLocale cp
  let msp ← jsGet crop "msp"
  let mspS ← jsToLocale msp
  let profitS ← jsToLocale profit
  let demand ← jsGet crop "demand"
  let supply ← jsGet crop "supply"
  pure ("\n                    <div style=\"background: white; border-radius: 15px; padding: 20px; box-shadow: 0 4px 15px rgba(0,0,0,0.1); transition: transform 0.3s;\">\n                        <div style=\"display: flex; justify-content: space-between; align-items: center; margin-bottom: 15px;\">\n                            <h6 style=\"margin: 0; color: #2d5016; font-weight: 700;\">🌾 "
        ++ jsToStr (jsOrV nameH name)
        ++ "</h6>\n                            <span style=\"font-size: 1.2rem;\">"
        ++ trendIcon
        ++ "</span>\n                        </div>\n                        <div style=\"text-align: center; margin-bottom: 15px;\">\n                            <div style=\"font-size: 1.8rem; font-weight: 700; color: #4a7c59;\">₹"
        ++ cpS
        ++ "</div>\n                            <div style=\"color: #666; font-size: 0.9rem;\">/quintal</div>\n                        </div>\n                        <div style=\"font-size: 0.9rem; line-height: 1.8;\">\n                            <div style=\"display: flex; justify-content: space-between;\">\n                                <span style=\"color: #666;\">MSP:</span>\n                                <span style=\"font-weight: 600;\">₹"
        ++ mspS
        ++ "</span>\n                            </div>\n                            <div style=\"display: flex; justify-content: space-between;\">\n                                <span style=\"color: #666;\">लाभ:</span>\n                                <span style=\"font-weight: 600; color: "
        ++ profitColor
        ++ ";\">₹"
        ++ profitS
        ++ "</span>\n                            </div>\n                            <div style=\"display: flex; justify-content: space-between;\">\n                                <span style=\"color: #666;\">मांग:</span>\n                                <span style=\"font-weight: 600;\">"
        ++ jsToStr (jsOrV demand (JsVal.str "मध्यम"))
        ++ "</span>\n                            </div>\n                            <div style=\"display: flex; justify-content: space-between;\">\n                                <span style=\"color: #666;\">आपूर्ति:</span>\n                                <span style=\"font-weight: 600;\">"
        ++ jsToStr (jsOrV supply (JsVal.str "मध्यम"))
        ++ "</span>\n                            </div>\n                        </div>\n                    </div>\n                ")

/-- The fixed header of the nearby-mandis section (source lines 358–362). -/
def mpMandiSectionHeader : String :=
  "\n                    <div style=\"margin-top: 30px;\">\n                        <h5 style=\"color: #2d5016; margin-bottom: 15px;\">🏪 निकटतम मंडी</h5>\n                        <div style=\"display: grid; grid-template-columns: repeat(auto-fill, minmax(200px, 1fr)); gap: 15px;\">\n                "

/-- One nearby-mandi card (source lines 364–374). -/
def mpMandiCard (mandi : JsVal) : Except Unit String := do
  let status ← jsGet mandi "status"
  let statusColor := if jsEqStr status "खुला" then "#28a745" else "#dc3545"
  let nm ← jsGet mandi "name"
  let dist ← jsGet mandi "distance"
  let spec ← jsGet mandi "specialty"
  pure ("\n                        <div style=\"background: #f8f9fa; border-radius: 10px; padding: 15px; border-left: 4px solid #4a7c59;\">\n                            <div style=\"font-weight: 700; color: #2d5016; margin-bottom: 5px;\">"
        ++ jsToStr nm
        ++ "</div>\n                            <div style=\"font-size: 0.85rem; color: #666;\">📍 "
        ++ jsToStr dist
        ++ "</div>\n                            <div style=\"font-size: 0.85rem; color: #666;\">🏷️ "
        ++ jsToStr spec
        ++ "</div>\n                            <div style=\"font-size: 0.85rem; color: "
        ++ statusColor
        ++ "; font-weight: 600;\">"
        ++ jsToStr status
        ++ "</div>\n                        </div>\n                    ")

/-- The full success markup of `loadMarketPrices` (source lines 311–379):
header, one card per crop, and, when the nearby-mandis list is truthy and
non-empty, the mandi section. -/
def renderMarketPrices (data crops nearbyMandis : JsVal) (now : Nat) :
    Except Unit String := do
  let header ← mpHeader data now
  let cropList ← jsElems crops
  let cards ← cropList.mapM mpCropCard
  let base := header ++ String.join cards ++ "</div>"
  if truthy nearbyMandis && jsLenPos nearbyMandis then
    let mandiList ← jsElems nearbyMandis
    let mcards ← mandiList.mapM mpMandiCard
    pure (base ++ mpMandiSectionHeader ++ String.join mcards ++ "</div></div>")
  else
    pure base

/-- The fallback extraction
`data.crops || data.market_prices?.top_crops || []` of `loadMarketPrices`
(source line 307), with the evaluation short-circuiting exactly as in
JavaScript.  Note that an empty array is truthy, so an empty `data.crops`
is selected as-is and the `top_crops` fallback is not consulted. -/
def mpCropsSel (data : JsVal) : Except Unit JsVal := do
  let cropsField ← jsGet data "crops"
  if truthy cropsField then pure cropsField
  else do
    let mp ← jsGet data "market_prices"
    pure (jsOrV (jsGetOpt mp "top_crops") (JsVal.arr []))

/-- The fallback extraction
`data.nearby_mandis || data.market_prices?.nearby_mandis || []` (source
line 308). -/
def mpMandisSel (data : JsVal) : Except Unit JsVal := do
  let nmField ← jsGet data "nearby_mandis"
  if truthy nmField then pure nmField
  else do
    let mp ← jsGet data "market_prices"
    pure (jsOrV (jsGetOpt mp "nearby_mandis") (JsVal.arr []))

/-- The body of `loadMarketPrices` after `response.json()`, continued:
the `crops && crops.length > 0` test and the rendering (source lines
310–383). -/
def mpBody (data : JsVal) (now : Nat) : Except Unit (Option String) := do
  let crops ← mpCropsSel data
  let nearbyMandis ← mpMandisSel data
  if truthy crops && jsLenPos crops then
    let html ← renderMarketPrices data crops nearbyMandis now
    pure (some html)
  else
    pure none

/-- The main weather card markup (source lines 416–432). -/
def weatherMainCard (data weather : JsVal) : Except Unit String := do
  let loc ← jsGet data "location"
  let temp ← jsGet weather "temperature"
  let condn ← jsGet weather "condition"
  let desc ← jsGet weather "description"
  let hum ← jsGet weather "humidity"
  let wind ← jsGet weather "wind_speed"
  let feels ← jsGet weather "feels_like"
  let pres ← jsGet weather "pressure"
  let presU ← jsGet weather "pressure_unit"
  pure ("\n                <div style=\"background: white; border-radius: 15px; padding: 30px; box-shadow: 0 4px 15px rgba(0,0,0,0.1); margin-bottom: 20px;\">\n                    <h4 style=\"color: #2d5016; margin-bottom: 20px;\">🌤️ मौसम की जानकारी - "
        ++ jsToStr loc
        ++ "</h4>\n                    <div style=\"display: grid; grid-template-columns: repeat(auto-fit, minmax(200px, 1fr)); gap: 20px;\">\n                        <div style=\"text-align: center;\">\n                            <div style=\"font-size: 3rem; font-weight: 700; color: #4a7c59;\">"
        ++ jsToStr (jsOrV temp (JsVal.str "28°C"))
        ++ "</div>\n                            <div style=\"color: #666; margin-top: 10px;\">"
        ++ jsToStr (jsOrV condn (jsOrV desc (JsVal.str "साफ आसमान")))
        ++ "</div>\n                        </div>\n                        <div>\n                            <div style=\"margin-bottom: 10px;\">💧 नमी: "
        ++ jsToStr (jsOrV hum (JsVal.str "65%"))
        ++ "</div>\n                            <div style=\"margin-bottom: 10px;\">💨 हवा: "
        ++ jsToStr (jsOrV wind (JsVal.str "12 km/h"))
        ++ "</div>\n                            <div style=\"margin-bottom: 10px;\">🌡️ अनुभव: "
        ++ jsToStr (jsOrV feels (JsVal.str "30°C"))
        ++ "</div>\n                            <div style=\"margin-bottom: 10px;\">📊 दबाव: "
        ++ jsToStr (jsOrV pres (JsVal.str "1013"))
        ++ " "
        ++ jsToStr (jsOrV presU (JsVal.str "hPa"))
        ++ "</div>\n                        </div>\n                    </div>\n                </div>\n            ")

/-- The fixed header of the forecast section (source lines 436–440). -/
def weatherForecastHeader : String :=
  "\n                    <div style=\"background: white; border-radius: 15px; padding: 30px; box-shadow: 0 4px 15px rgba(0,0,0,0.1);\">\n                        <h5 style=\"color: #2d5016; margin-bottom: 15px;\">📅 7 दिन का पूर्वानुमान</h5>\n                        <div style=\"display: grid; grid-template-columns: repeat(auto-fill, minmax(150px, 1fr)); gap: 15px;\">\n                "

/-- One forecast-day card (source lines 442–450). -/
def weatherDayCard (day : JsVal) : Except Unit String := do
  let dd ← jsGet day "day"
  let dt ← jsGet day "date"
  let temp ← jsGet day "temperature"
  let condn ← jsGet day "condition"
  pure ("\n                        <div style=\"background: #f8f9fa; border-radius: 10px; padding: 15px; text-align: center;\">\n                            <div style=\"font-weight: 700; color: #2d5016; margin-bottom: 5px;\">"
        ++ jsToStr (jsOrV dd dt)
        ++ "</div>\n                            <div style=\"font-size: 1.5rem; color: #4a7c59; margin: 10px 0;\">"
        ++ jsToStr (jsOrV temp (JsVal.str "28°C"))
        ++ "</div>\n                            <div style=\"font-size: 0.85rem; color: #666;\">"
        ++ jsToStr (jsOrV condn (JsVal.str "साफ"))
        ++ "</div>\n                        </div>\n                    ")

/-- The body of `loadWeatherData` after `response.json()` (source lines
412–457): weather/forecast extraction with fallback paths, the
`weather && (weather.temperature || data.location)` test, the main card
and, when the forecast list is truthy and non-empty, the first seven
forecast days. -/
def weatherBody (data : JsVal) : Except Unit (Option String) := do
  let cw ← jsGet data "current_weather"
  let weather ←
    if truthy cw then pure cw
    else do
      let dd ← jsGet data "data"
      pure (jsOrV (jsGetOpt dd "current") (JsVal.obj []))
  let ff ← jsGet data "forecast_7_days"
  let forecast ←
    if truthy ff then pure ff
    else do
      let dd ← jsGet data "data"
      pure (jsOrV (jsGetOpt dd "forecast_7_days") (JsVal.arr []))
  let cond ←
    if truthy weather then do
      let temp ← jsGet weather "temperature"
      if truthy temp then pure true
      else do
        let loc ← jsGet data "location"
        pure (truthy loc)
    else pure false
  if cond then
    let base ← weatherMainCard data weather
    if truthy forecast && jsLenPos forecast then
      let days ← jsElems forecast
      let cards ← (days.take 7).mapM weatherDayCard
      pure (some (base ++ weatherForecastHeader ++ String.join cards ++ "</div></div>"))
    else
      pure (some base)
  else
    pure none


/-- One scheme card (source lines 492–509). -/
def schemeCard (scheme : JsVal) : Except Unit String := do
  let nh ← jsGet scheme "name_hindi"
  let nm ← jsGet scheme "name"
  let dh ← jsGet scheme "description_hindi"
  let ds ← jsGet scheme "description"
  let bh ← jsGet scheme "benefits_hindi"
  let bs ← jsGet scheme "benefits"
  let eh ← jsGet scheme "eligibility_hindi"
  let es ← jsGet scheme "eligibility"
  pure ("\n                    <div style=\"background: white; border-radius: 15px; padding: 25px; box-shadow: 0 4px 15px rgba(0,0,0,0.1); border-left: 5px solid #4a7c59;\">\n                        <h5 style=\"color: #2d5016; margin-bottom: 15px;\">📋 "
        ++ jsToStr (jsOrV nh nm)
        ++ "</h5>\n                        <p style=\"color: #666; margin-bottom: 15px; line-height: 1.6;\">"
        ++ jsToStr (jsOrV dh (jsOrV ds (JsVal.str "")))
        ++ "</p>\n                        <div style=\"display: grid; grid-template-columns: repeat(auto-fit, minmax(200px, 1fr)); gap: 15px; margin-top: 15px;\">\n                            <div>\n                                <strong style=\"color: #2d5016;\">💰 लाभ:</strong>\n                                <div style=\"color: #666; font-size: 0.9rem; margin-top: 5px;\">"
        ++ jsToStr (jsOrV bh (jsOrV bs (JsVal.str "विवरण उपलब्ध नहीं")))
        ++ "</div>\n                            </div>\n                            <div>\n                                <strong style=\"color: #2d5016;\">✅ पात्रता:</strong>\n                                <div style=\"color: #666; font-size: 0.9rem; margin-top: 5px;\">"
        ++ jsToStr (jsOrV eh (jsOrV es (JsVal.str "सभी किसान")))
        ++ "</div>\n                            </div>\n                        </div>\n                    </div>\n                ")

/-- The body of `loadGovernmentSchemes` after `response.json()` (source
lines 487–516): `data.schemes || []`, the non-emptiness test, one card per
scheme inside a fixed grid wrapper. -/
def schemesBody (data : JsVal) : Except Unit (Option String) := do
  let sf ← jsGet data "schemes"
  let schemes := jsOrV sf (JsVal.arr [])
  if truthy schemes && jsLenPos schemes then
    let list ← jsElems schemes
    let cards ← list.mapM schemeCard
    pure (some ("<div style=\"display: grid; gap: 20px;\">" ++ String.join cards ++ "</div>"))
  else
    pure none


/-- The category-icon lookup of `loadCropRecommendations` (source lines
547–553): an object-literal lookup keyed by the crop category, with
default. -/
def categoryIcon (category : JsVal) : String :=
  if jsEqStr category "Cereal" then "🌾"
  else if jsEqStr category "Pulse" then "🫘"
  else if jsEqStr category "Oilseed" then "🌻"
  else if jsEqStr category "Vegetable" then "🥦"
  else if jsEqStr category "Fruit" then "🍎"
  else if jsEqStr category "Spice" then "🌶️"
  else if jsEqStr category "Commercial" then "💰"
  else if jsEqStr category "Medicinal" then "🌿"
  else "🌱"

/-- The water-requirement colour (source lines 556–560). -/
def waterColorOf (req : JsVal) : String :=
  if jsEqStr req "high" then "#007bff"
  else if jsEqStr req "moderate" then "#28a745"
  else "#fd7e14"

/-- The header of the crop-recommendations markup (source lines 563–570). -/
def crHeader (data : JsVal) : Except Unit String := do
  let season ← jsGet data "season"
  let region ← jsGet data "region"
  let ds ← jsGet data "data_source"
  let msg ← jsGet data "message"
  pure ("\n                <div class=\"real-time-header\" style=\"background: linear-gradient(135deg, #2d5016 0%, #4a7c59 100%); margin-bottom: 25px; padding: 20px; border-radius: 12px;\">\n                    <h4 style=\"color: white; margin-bottom: 10px;\">"
        ++ jsToStr season
        ++ " के लिए सर्वोत्तम फसल सुझाव - "
        ++ jsToStr region
        ++ "</h4>\n                    <p style=\"color: rgba(255,255,255,0.9); margin: 5px 0;\">📊 स्रोत: "
        ++ jsToStr ds
        ++ "</p>\n                    <p style=\"color: rgba(255,255,255,0.8); font-size: 0.9rem; margin: 0;\">"
        ++ jsToStr msg
        ++ "</p>\n                </div>\n                <div style=\"display: grid; grid-template-columns: repeat(auto-fill, minmax(280px, 1fr)); gap: 20px;\">\n            ")

/-- One recommendation card (source lines 572–617); `index` is the
`forEach` position. -/
def crCard (crop : JsVal) (index : Nat) : Except Unit String := do
  let score ← jsGet crop "suitability_score"
  let suitabilityColor :=
    if jsGeNum score 85 then "#28a745"
    else if jsGeNum score 70 then "#ffc107" else "#dc3545"
  let cat ← jsGet crop "category"
  let icon := categoryIcon cat
  let wr ← jsGet crop "water_requirement"
  let waterColor := waterColorOf wr
  let nameH ← jsGet crop "crop_name_hindi"
  let name ← jsGet crop "crop_name"
  let pph ← jsGet crop "profit_per_hectare"
  let pphS ← jsToLocale pph
  let yph ← jsGet crop "yield_per_hectare"
  let dur ← jsGet crop "duration_days"
  let reason ← jsGet crop "reason_hindi"
  pure ("\n                    <div style=\"background: white; border-radius: 15px; padding: 20px; box-shadow: 0 5px 15px rgba(0,0,0,0.08); transition: transform 0.3s; position: relative; overflow: hidden; border-top: 4px solid "
        ++ suitabilityColor
        ++ ";\">\n                        <div style=\"position: absolute; top: 10px; right: 10px; background: #f8f9fa; padding: 5px 10px; border-radius: 20px; font-size: 0.8rem; font-weight: 600; color: #666; border: 1px solid #eee;\">\n                            "
        ++ icon
        ++ " "
        ++ jsToStr cat
        ++ "\n                        </div>\n                        \n                        <h5 style=\"color: #2d5016; font-weight: 700; margin-bottom: 5px; font-size: 1.25rem;\">"
        ++ toString (index + 1)
        ++ ". "
        ++ jsToStr nameH
        ++ "</h5>\n                        <div style=\"color: #666; font-size: 0.9rem; margin-bottom: 15px;\">"
        ++ jsToStr name
        ++ "</div>\n                        \n                        <div style=\"display: flex; align-items: center; margin-bottom: 15px;\">\n                            <div style=\"flex-grow: 1; height: 8px; background: #eee; border-radius: 4px; overflow: hidden;\">\n                                <div style=\"width: "
        ++ jsToStr score
        ++ "%; height: 100%; background: "
        ++ suitabilityColor
        ++ "; border-radius: 4px;\"></div>\n                            </div>\n                            <span style=\"margin-left: 10px; font-weight: 700; color: "
        ++ suitabilityColor
        ++ ";\">"
        ++ jsToStr score
        ++ "%</span>\n                        </div>\n                        \n                        <div style=\"display: grid; grid-template-columns: 1fr 1fr; gap: 10px; font-size: 0.9rem; background: #f8f9fa; padding: 10px; border-radius: 10px; margin-bottom: 15px;\">\n                            <div>\n                                <div style=\"color: #666; font-size: 0.8rem;\">अनुमानित लाभ</div>\n                                <div style=\"font-weight: 700; color: #28a745;\">₹"
        ++ pphS
        ++ "</div>\n                            </div>\n                            <div>\n                                <div style=\"color: #666; font-size: 0.8rem;\">उपज (क्विंटल/हे.)</div>\n                                <div style=\"font-weight: 700; color: #2d5016;\">"
        ++ jsToStr yph
        ++ " Q</div>\n                            </div>\n                            <div>\n                                <div style=\"color: #666; font-size: 0.8rem;\">अवधि</div>\n                                <div style=\"font-weight: 600; color: #555;\">"
        ++ jsToStr dur
        ++ " दिन</div>\n                            </div>\n                             <div>\n                                <div style=\"color: #666; font-size: 0.8rem;\">पानी की आवश्यकता</div>\n                                <div style=\"font-weight: 600; color: "
        ++ waterColor
        ++ "; text-transform: capitalize;\">"
        ++ jsToStr wr
        ++ "</div>\n                            </div>\n                        </div>\n                        \n                        <div style=\"font-size: 0.9rem; color: #555; background: #fff3cd; padding: 10px; border-radius: 8px; border-left: 3px solid #ffc107;\">\n                            💡 <strong>सुझाव:</strong> "
        ++ jsToStr reason
        ++ "\n                        </div>\n                    </div>\n                ")

/-- The body of `loadCropRecommendations` after `response.json()` (source
lines 544–623): `data.recommendations || []`, the non-emptiness test,
header plus one indexed card per recommendation. -/
def crBody (data : JsVal) : Except Unit (Option String) := do
  let rf ← jsGet data "recommendations"
  let recommendations := jsOrV rf (JsVal.arr [])
  if truthy recommendations && jsLenPos recommendations then
    let header ← crHeader data
    let list ← jsElems recommendations
    let cards ← list.enum.mapM fun p => crCard p.2 p.1
    pure (some (header ++ String.join cards ++ "</div>"))
  else
    pure none
end Krishimitra

namespace Krishimitra

/-- Handler `loadMarketPrices` (source lines 291–391).  The whole body is
wrapped in `try`/`catch`; a caught exception re-queries `pricesData` and,
when present, writes the fixed error message, so the function is total and
never propagates an exception. -/
def loadMarketPrices (g : Globals) (dom : Dom) (fo : FetchOutcome) (now : Nat) :
    Dom × List Event :=
  match getElementById dom "pricesData" with
  | none => (dom, [])
  | some _ =>
    let dom1 := setInnerHTML dom "pricesData" mpLoadingMsg
    let evs := [Event.setHTML "pricesData" mpLoadingMsg, Event.fetch (mpUrl g)]
    let caught : Dom × List Event :=
      match getElementById dom1 "pricesData" with
      | some _ =>
          (setInnerHTML dom1 "pricesData" mpErrorMsg,
           evs ++ [Event.setHTML "pricesData" mpErrorMsg])
      | none => (dom1, evs)
    match fo with
    | .reject => caught
    | .jsonError => caught
    | .ok data =>
      match mpBody data now with
      | .error _ => caught
      | .ok none =>
          (setInnerHTML dom1 "pricesData" mpUnavailableMsg,
           evs ++ [Event.setHTML "pricesData" mpUnavailableMsg])
      | .ok (some html) =>
          (setInnerHTML dom1 "pricesData" html,
           evs ++ [Event.setHTML "pricesData" html])

/-- Handler `loadWeatherData` (source lines 396–466), same `try`/`catch`
shape over the `weatherData` container. -/
def loadWeatherData (g : Globals) (dom : Dom) (fo : FetchOutcome) (now : Nat) :
    Dom × List Event :=
  match getElementById dom "weatherData" with
  | none => (dom, [])
  | some _ =>
    let dom1 := setInnerHTML dom "weatherData" weatherLoadingMsg
    let evs := [Event.setHTML "weatherData" weatherLoadingMsg,
                Event.fetch (weatherUrl g)]
    let caught : Dom × List Event :=
      match getElementById dom1 "weatherData" with
      | some _ =>
          (setInnerHTML dom1 "weatherData" weatherErrorMsg,
           evs ++ [Event.setHTML "weatherData" weatherErrorMsg])
      | none => (dom1, evs)
    match fo with
    | .reject => caught
    | .jsonError => caught
    | .ok data =>
      match weatherBody data with
      | .error _ => caught
      | .ok none =>
          (setInnerHTML dom1 "weatherData" weatherUnavailableMsg,
           evs ++ [Event.setHTML "weatherData" weatherUnavailableMsg])
      | .ok (some html) =>
          (setInnerHTML dom1 "weatherData" html,
           evs ++ [Event.setHTML "weatherData" html])

/-- Handler `loadGovernmentSchemes` (source lines 471–524), same shape
over the `schemesData` container. -/
def loadGovernmentSchemes (g : Globals) (dom : Dom) (fo : FetchOutcome) (now : Nat) :
    Dom × List Event :=
  match getElementById dom "schemesData" with
  | none => (dom, [])
  | some _ =>
    let dom1 := setInnerHTML dom "schemesData" schemesLoadingMsg
    let evs := [Event.setHTML "schemesData" schemesLoadingMsg,
                Event.fetch (schemesUrl g)]
    let caught : Dom × List Event :=
      match getElementById dom1 "schemesData" with
      | some _ =>
          (setInnerHTML dom1 "schemesData" schemesErrorMsg,
           evs ++ [Event.setHTML "schemesData" schemesErrorMsg])
      | none => (dom1, evs)
    match fo with
    | .reject => caught
    | .jsonError => caught
    | .ok data =>
      match schemesBody data with
      | .error _ => caught
      | .ok none =>
          (setInnerHTML dom1 "schemesData" schemesUnavailableMsg,
           evs ++ [Event.setHTML "schemesData" schemesUnavailableMsg])
      | .ok (some html) =>
          (setInnerHTML dom1 "schemesData" html,
           evs ++ [Event.setHTML "schemesData" html])

/-- The container lookup of `loadCropRecommendations` (source line 531 and
again in its catch block):
`document.getElementById('cropsData') || document.getElementById('cropRecommendationsData')`,
as the id of the element found. -/
def crContainerId (dom : Dom) : Option String :=
  match getElementById dom "cropsData" with
  | some _ => some "cropsData"
  | none =>
    match getElementById dom "cropRecommendationsData" with
    | some _ => some "cropRecommendationsData"
    | none => none

/-- Handler `loadCropRecommendations` (source lines 529–632), same shape
but over the two-id container fallback. -/
def loadCropRecommendations (g : Globals) (dom : Dom) (fo : FetchOutcome) (now : Nat) :
    Dom × List Event :=
  match crContainerId dom with
  | none => (dom, [])
  | some cid =>
    let dom1 := setInnerHTML dom cid crLoadingMsg
    let evs := [Event.setHTML cid crLoadingMsg, Event.fetch (advisoriesUrl g)]
    let caught : Dom × List Event :=
      match crContainerId dom1 with
      | some cid2 =>
          (setInnerHTML dom1 cid2 crErrorMsg,
           evs ++ [Event.setHTML cid2 crErrorMsg])
      | none => (dom1, evs)
    match fo with
    | .reject => caught
    | .jsonError => caught
    | .ok data =>
      match crBody data with
      | .error _ => caught
      | .ok none =>
          (setInnerHTML dom1 cid crUnavailableMsg,
           evs ++ [Event.setHTML cid crUnavailableMsg])
      | .ok (some html) =>
          (setInnerHTML dom1 cid html,
           evs ++ [Event.setHTML cid html])

/-- Dispatcher `loadServiceData` (source lines 685–708): a `switch` on the
service name.  The `pest-control`, `ai-assistant` and `default` branches
only log to the console, so they leave the DOM unchanged and issue no
fetch. -/
def loadServiceData (serviceName : String) (g : Globals) (dom : Dom)
    (fo : FetchOutcome) (now : Nat) : Dom × List Event :=
  if serviceName = "government-schemes" then loadGovernmentSchemes g dom fo now
  else if serviceName = "crop-recommendations" then loadCropRecommendations g dom fo now
  else if serviceName = "weather" then loadWeatherData g dom fo now
  else if serviceName = "market-prices" then loadMarketPrices g dom fo now
  else (dom, [])

end Krishimitra

namespace Krishimitra

/-!
## Page model for `showService`

`showService` (source lines 660–683) works on element class lists:
it removes `active` from every element of class `content-section`, then
adds `active` to the element with id `serviceName + '-content'` (first
match) and triggers `loadServiceData` when that element exists.
-/

/-- An element as seen by `showService`: its id (if any) and its class
list. -/
structure PElem where
  id : Option String
  classes : List String
deriving DecidableEq, Repr

/-- The document as a list of elements, in tree order. -/
abbrev Page := List PElem

/-- JavaScript `classList.remove(c)`. -/
def classListRemove (cs : List String) (c : String) : List String :=
  cs.filter (· ≠ c)

/-- JavaScript `classList.add(c)`. -/
def classListAdd (cs : List String) (c : String) : List String :=
  if c ∈ cs then cs else cs ++ [c]

/-- Membership test for `querySelectorAll('.content-section')`. -/
def isContentSection (e : PElem) : Bool :=
  "content-section" ∈ e.classes

/-- The class-list update applied to each selected content section:
remove `active`, leave other elements untouched. -/
def hideElem (e : PElem) : PElem :=
  if isContentSection e then { e with classes := classListRemove e.classes "active" }
  else e

/-- The first pass of `showService` (source lines 665–667):
`document.querySelectorAll('.content-section').forEach(s => s.classList.remove('active'))`. -/
def hideAllContentSections (p : Page) : Page :=
  p.map hideElem

/-- Index of the first element with the given id
(`document.getElementById`). -/
def pageIdIdx (p : Page) (i : String) : Option Nat :=
  match p with
  | [] => none
  | e :: rest => if e.id = some i then some 0 else (pageIdIdx rest i).map (· + 1)

/-- Adding `active` to the element at position `k`. -/
def pageAddActive : Page → Nat → Page
  | [], _ => []
  | e :: rest, 0 => { e with classes := classListAdd e.classes "active" } :: rest
  | e :: rest, k + 1 => e :: pageAddActive rest k

/-- Navigation function `showService` (source lines 660–683).  The
returned Boolean records whether the selected content element was found,
i.e. whether `loadServiceData(serviceName)` was invoked
(`scrollIntoView` has no effect on this state). -/
def showService (serviceName : String) (p : Page) : Page × Bool :=
  let p1 := hideAllContentSections p
  match pageIdIdx p1 (serviceName ++ "-content") with
  | some k => (pageAddActive p1 k, true)
  | none => (p1, false)

end Krishimitra

namespace Krishimitra

/-!
## Generic service helpers

Two parameterizations of a common "fetch JSON, map, render, fall back"
helper, used to settle the refinement claim about the four handlers.
-/

/-- Following the spec's words: "a single generic 'fetch JSON, render via
a pure data→markup function, fall back to a localized error string'
helper, parameterized per service by (endpoint URL, response-shape mapper,
render function, target container id)".  The per-service message strings
are granted as extra parameters beyond the four the spec lists (a
charitable strengthening), but the render function is a pure data→markup
function, so the produced markup cannot depend on the invocation time
`now`, and the shape mapper and render function are total, so they cannot
throw. -/
def specHelper (url : String) (mapper : JsVal → Option JsVal)
    (render : JsVal → String) (cid : String)
    (loadingMsg unavailableMsg errorMsg : String)
    (g : Globals) (dom : Dom) (fo : FetchOutcome) (now : Nat) : Dom × List Event :=
  match getElementById dom cid with
  | none => (dom, [])
  | some _ =>
    let dom1 := setInnerHTML dom cid loadingMsg
    let evs := [Event.setHTML cid loadingMsg, Event.fetch url]
    let caught : Dom × List Event :=
      match getElementById dom1 cid with
      | some _ =>
          (setInnerHTML dom1 cid errorMsg, evs ++ [Event.setHTML cid errorMsg])
      | none => (dom1, evs)
    match fo with
    | .reject => caught
    | .jsonError => caught
    | .ok data =>
      match mapper data with
      | none =>
          (setInnerHTML dom1 cid unavailableMsg,
           evs ++ [Event.setHTML cid unavailableMsg])
      | some v =>
          (setInnerHTML dom1 cid (render v),
           evs ++ [Event.setHTML cid (render v)])

/-- Configuration of the generic helper that the handlers actually fit:
an ordered list of container ids (the crop-recommendations handler falls
back across two ids), the three per-service localized messages, the
endpoint URL as a function of the location globals, and a combined
shape-mapper/render function that receives the invocation time and may
throw. -/
structure ServiceConfig where
  containerIds : List String
  loadingMsg : String
  unavailableMsg : String
  errorMsg : String
  url : Globals → String
  body : JsVal → Nat → Except Unit (Option String)

/-- The id of the first present element among `ids` (the JavaScript
`getElementById(a) || getElementById(b) || ...` chain). -/
def firstPresentId (dom : Dom) : List String → Option String
  | [] => none
  | c :: cs =>
    match getElementById dom c with
    | some _ => some c
    | none => firstPresentId dom cs

/-- The generic handler: show the loading placeholder, fetch, run the
configured body on the parsed response, write the produced markup or the
configured unavailable message, and on any failure write the configured
error message into the (re-queried) container. -/
def runGenericService (cfg : ServiceConfig) (g : Globals) (dom : Dom)
    (fo : FetchOutcome) (now : Nat) : Dom × List Event :=
  match firstPresentId dom cfg.containerIds with
  | none => (dom, [])
  | some cid =>
    let dom1 := setInnerHTML dom cid cfg.loadingMsg
    let evs := [Event.setHTML cid cfg.loadingMsg, Event.fetch (cfg.url g)]
    let caught : Dom × List Event :=
      match firstPresentId dom1 cfg.containerIds with
      | some cid2 =>
          (setInnerHTML dom1 cid2 cfg.errorMsg,
           evs ++ [Event.setHTML cid2 cfg.errorMsg])
      | none => (dom1, evs)
    match fo with
    | .reject => caught
    | .jsonError => caught
    | .ok data =>
      match cfg.body data now with
      | .error _ => caught
      | .ok none =>
          (setInnerHTML dom1 cid cfg.unavailableMsg,
           evs ++ [Event.setHTML cid cfg.unavailableMsg])
      | .ok (some html) =>
          (setInnerHTML dom1 cid html,
           evs ++ [Event.setHTML cid html])

end Krishimitra

namespace Krishimitra

/-!
## Replay of an event trace, and concrete inputs used at witnesses
-/

/-- Replaying a trace of events over a DOM: the DOM state obtained after
the listed innerHTML writes (a fetch changes nothing). -/
def replay (dom : Dom) : List Event → Dom
  | [] => dom
  | Event.setHTML id h :: rest => replay (setInnerHTML dom id h) rest
  | Event.fetch _ :: rest => replay dom rest

/-- A concrete crop record with the numeric fields the market renderer
formats. -/
def wheatCrop : JsVal :=
  .obj [("crop_name", .str "Wheat"), ("current_price", .num 2000),
        ("msp", .num 1900), ("profit", .num 100)]

/-- A market response whose crop list is non-empty but which carries no
timestamp, so the renderer falls back to `Date.now()`. -/
def mpDataNoTimestamp : JsVal := .obj [("crops", .arr [wheatCrop])]

/-- A market response with an empty `crops` array next to a non-empty
`market_prices.top_crops` list. -/
def mpDataEmptyCropsWithTop : JsVal :=
  .obj [("crops", .arr []),
        ("market_prices", .obj [("top_crops", .arr [wheatCrop])])]

/-- A market response with a truthy timestamp. -/
def mpDataWithTimestamp : JsVal :=
  .obj [("crops", .arr [wheatCrop]), ("timestamp", .num 1700000000000)]

/-- A market response whose selected crop list is the (truthy) empty
array. -/
def mpDataEmptyCrops : JsVal := .obj [("crops", .arr [])]

/-- A document holding only the market-prices container. -/
def pricesOnlyDom : Dom := [("pricesData", "old")]

/-- A document holding every service container. -/
def allServicesDom : Dom :=
  [("pricesData", "a"), ("weatherData", "b"), ("schemesData", "c"),
   ("cropsData", "d"), ("cropRecommendationsData", "e")]

/-- A two-element page for the navigation witness: the weather content
section and another, currently active, section. -/
def weatherPage : Page :=
  [{ id := some "weather-content", classes := ["content-section"] },
   { id := some "market-prices-content", classes := ["content-section", "active"] }]

end Krishimitra

namespace Krishimitra

/-!
## Generic-helper configurations matching the four handlers
-/

/-- The configuration under which the generic handler reproduces
`loadMarketPrices`. -/
def mpConfig : ServiceConfig :=
  { containerIds := ["pricesData"], loadingMsg := mpLoadingMsg,
    unavailableMsg := mpUnavailableMsg, errorMsg := mpErrorMsg,
    url := mpUrl, body := mpBody }

/-- The configuration under which the generic handler reproduces
`loadWeatherData`. -/
def weatherConfig : ServiceConfig :=
  { containerIds := ["weatherData"], loadingMsg := weatherLoadingMsg,
    unavailableMsg := weatherUnavailableMsg, errorMsg := weatherErrorMsg,
    url := weatherUrl, body := fun d _ => weatherBody d }

/-- The configuration under which the generic handler reproduces
`loadGovernmentSchemes`. -/
def schemesConfig : ServiceConfig :=
  { containerIds := ["schemesData"], loadingMsg := schemesLoadingMsg,
    unavailableMsg := schemesUnavailableMsg, errorMsg := schemesErrorMsg,
    url := schemesUrl, body := fun d _ => schemesBody d }

/-- The configuration under which the generic handler reproduces
`loadCropRecommendations`. -/
def crConfig : ServiceConfig :=
  { containerIds := ["cropsData", "cropRecommendationsData"],
    loadingMsg := crLoadingMsg, unavailableMsg := crUnavailableMsg,
    errorMsg := crErrorMsg, url := advisoriesUrl, body := fun d _ => crBody d }

end Krishimitra

namespace Krishimitra

/-- Element `i` of a page is a content section currently marked active. -/
def ActiveSectionAt (p : Page) (i : Nat) : Prop :=
  ∃ e, p.get? i = some e ∧ isContentSection e = true ∧ "active" ∈ e.classes

end Krishimitra

namespace Krishimitra

/-!
## Lemmas about `firstIdxOf`
-/

/-- An occurrence at or past the end of `s` is impossible for a non-empty
pattern. -/
theorem not_occursAt_of_length_le {pat s : List Char} {j : Nat}
    (hp : pat ≠ []) (hj : s.length ≤ j) : ¬ OccursAt pat s j := by
  intro h
  unfold OccursAt at h
  rw [List.drop_eq_nil_of_le hj] at h
  cases pat with
  | nil => exact hp rfl
  | cons a t => simp [List.isPrefixOf] at h

/-- `firstIdxOf` returns exactly the first-occurrence position. -/
theorem firstIdxOf_of_isFirstOccurrence {pat : List Char} :
    ∀ {s : List Char} {i : Nat},
      IsFirstOccurrence pat s i → firstIdxOf pat s = some i := by
  intro s
  induction s with
  | nil =>
    intro i h
    obtain ⟨h1, h2⟩ := h
    match i with
    | 0 =>
      unfold firstIdxOf
      rw [if_pos (by simpa [OccursAt] using h1)]
    | j + 1 =>
      exact absurd (by simpa [OccursAt] using h1 : OccursAt pat [] 0)
        (h2 0 (Nat.succ_pos j))
  | cons c rest ih =>
    intro i h
    obtain ⟨h1, h2⟩ := h
    match i with
    | 0 =>
      unfold firstIdxOf
      rw [if_pos (by simpa [OccursAt] using h1)]
    | j + 1 =>
      have hnot : ¬ pat.isPrefixOf (c :: rest) = true := by
        have := h2 0 (Nat.succ_pos j)
        simpa [OccursAt] using this
      have hrest : IsFirstOccurrence pat rest j := by
        refine ⟨by simpa [OccursAt] using h1, fun k hk => ?_⟩
        have := h2 (k + 1) (Nat.succ_lt_succ hk)
        simpa [OccursAt] using this
      unfold firstIdxOf
      rw [if_neg hnot, ih hrest]
      rfl

/-- When the pattern occurs nowhere, `firstIdxOf` returns `none`
(JavaScript `-1`). -/
theorem firstIdxOf_eq_none_of_not_occurs {pat : List Char} :
    ∀ {s : List Char}, (∀ j, ¬ OccursAt pat s j) → firstIdxOf pat s = none := by
  intro s
  induction s with
  | nil =>
    intro h
    unfold firstIdxOf
    rw [if_neg (by simpa [OccursAt] using h 0)]
  | cons c rest ih =>
    intro h
    unfold firstIdxOf
    rw [if_neg (by simpa [OccursAt] using h 0)]
    rw [ih fun j => by simpa [OccursAt] using h (j + 1)]
    rfl

end Krishimitra

namespace Krishimitra

/-- C2: when both marker strings occur in the template-file content, each
patching script writes exactly the prefix of the content strictly before
the first occurrence of its start marker, then its fixed replacement text,
then the suffix of the content from the first occurrence of the end marker
on — every character outside the replaced span is carried over
unchanged. -/
theorem c2_patch_splices_at_first_occurrences :
    ∀ (content : List Char) (i e : Nat),
      (IsFirstOccurrence mpStartMarker content i →
        IsFirstOccurrence mandiMarker content e →
        fixMarketPricesScript content =
          some (content.take i ++ mpReplacement ++ content.drop e))
      ∧ (IsFirstOccurrence fetchStartMarker content i →
        IsFirstOccurrence mandiMarker content e →
        fixFetchScript content =
          some (content.take i ++ fetchReplacement ++ content.drop e)) := by
  intro content i e
  constructor
  · intro h1 h2
    unfold fixMarketPricesScript
    rw [firstIdxOf_of_isFirstOccurrence h1, firstIdxOf_of_isFirstOccurrence h2]
  · intro h1 h2
    unfold fixFetchScript
    rw [firstIdxOf_of_isFirstOccurrence h1, firstIdxOf_of_isFirstOccurrence h2]

/-- Witness for C2 on concrete contents holding both markers. -/
theorem c2_patch_splices_at_first_occurrences_witness :
    (IsFirstOccurrence mpStartMarker (mpStartMarker ++ mandiMarker) 0
      ∧ IsFirstOccurrence mandiMarker (mpStartMarker ++ mandiMarker)
          mpStartMarker.length
      ∧ fixMarketPricesScript (mpStartMarker ++ mandiMarker) =
          some ((mpStartMarker ++ mandiMarker).take 0 ++ mpReplacement ++
            (mpStartMarker ++ mandiMarker).drop mpStartMarker.length))
    ∧ (IsFirstOccurrence fetchStartMarker (fetchStartMarker ++ mandiMarker) 0
      ∧ IsFirstOccurrence mandiMarker (fetchStartMarker ++ mandiMarker)
          fetchStartMarker.length
      ∧ fixFetchScript (fetchStartMarker ++ mandiMarker) =
          some ((fetchStartMarker ++ mandiMarker).take 0 ++ fetchReplacement ++
            (fetchStartMarker ++ mandiMarker).drop fetchStartMarker.length)) := by
  have h1 : IsFirstOccurrence mpStartMarker (mpStartMarker ++ mandiMarker) 0 := by
    decide
  have h2 : IsFirstOccurrence mandiMarker (mpStartMarker ++ mandiMarker)
      mpStartMarker.length := by decide
  have h3 : IsFirstOccurrence fetchStartMarker (fetchStartMarker ++ mandiMarker) 0 := by
    decide
  have h4 : IsFirstOccurrence mandiMarker (fetchStartMarker ++ mandiMarker)
      fetchStartMarker.length := by decide
  exact ⟨⟨h1, h2,
      (c2_patch_splices_at_first_occurrences (mpStartMarker ++ mandiMarker) 0
        mpStartMarker.length).1 h1 h2⟩,
    ⟨h3, h4,
      (c2_patch_splices_at_first_occurrences (fetchStartMarker ++ mandiMarker) 0
        fetchStartMarker.length).2 h3 h4⟩⟩

/-- C3: when either marker is absent from the template-file content
(JavaScript `indexOf` returns `-1`), the scripts perform no write — the
result is `none` and the template file stays byte-for-byte unchanged. -/
theorem c3_no_write_when_marker_absent :
    ∀ content : List Char,
      ((∀ j, ¬ OccursAt mpStartMarker content j) ∨
        (∀ j, ¬ OccursAt mandiMarker content j) →
        fixMarketPricesScript content = none)
      ∧ ((∀ j, ¬ OccursAt fetchStartMarker content j) ∨
        (∀ j, ¬ OccursAt mandiMarker content j) →
        fixFetchScript content = none) := by
  intro content
  constructor
  · rintro (h | h)
    · unfold fixMarketPricesScript
      rw [firstIdxOf_eq_none_of_not_occurs h]
    · unfold fixMarketPricesScript
      rw [firstIdxOf_eq_none_of_not_occurs h]
      cases firstIdxOf mpStartMarker content <;> rfl
  · rintro (h | h)
    · unfold fixFetchScript
      rw [firstIdxOf_eq_none_of_not_occurs h]
    · unfold fixFetchScript
      rw [firstIdxOf_eq_none_of_not_occurs h]
      cases firstIdxOf fetchStartMarker content <;> rfl

/-- Witness for C3: a one-character content holds neither marker, and
neither script writes. -/
theorem c3_no_write_when_marker_absent_witness :
    (∀ j, ¬ OccursAt mpStartMarker ([' '] : List Char) j)
    ∧ fixMarketPricesScript ([' '] : List Char) = none
    ∧ (∀ j, ¬ OccursAt mandiMarker ([' '] : List Char) j)
    ∧ fixFetchScript ([' '] : List Char) = none := by
  have hmp : ∀ j, ¬ OccursAt mpStartMarker ([' '] : List Char) j := by
    intro j
    match j with
    | 0 => decide
    | k + 1 =>
      exact not_occursAt_of_length_le (by decide) (Nat.succ_le_succ (Nat.zero_le k))
  have hma : ∀ j, ¬ OccursAt mandiMarker ([' '] : List Char) j := by
    intro j
    match j with
    | 0 => decide
    | k + 1 =>
      exact not_occursAt_of_length_le (by decide) (Nat.succ_le_succ (Nat.zero_le k))
  exact ⟨hmp, (c3_no_write_when_marker_absent [' ']).1 (Or.inl hmp), hma,
    (c3_no_write_when_marker_absent [' ']).2 (Or.inr hma)⟩

end Krishimitra

namespace Krishimitra

/-!
## Lemmas about the DOM model
-/

/-- Writing to a present element makes its content the written string. -/
theorem getElementById_setInnerHTML_self {dom : Dom} {id v : String}
    (h : (getElementById dom id).isSome) :
    getElementById (setInnerHTML dom id v) id = some v := by
  induction dom with
  | nil => simp [getElementById] at h
  | cons hd tl ih =>
    obtain ⟨k, w⟩ := hd
    by_cases hk : k = id
    · subst hk
      simp [getElementById, setInnerHTML]
    · simp [getElementById, setInnerHTML, hk] at h ⊢
      exact ih h

/-- Writing innerHTML never adds or removes elements: presence of any id
is preserved. -/
theorem isSome_getElementById_setInnerHTML (dom : Dom) (id v i : String) :
    (getElementById (setInnerHTML dom id v) i).isSome =
      (getElementById dom i).isSome := by
  induction dom with
  | nil => rfl
  | cons hd tl ih =>
    obtain ⟨k, w⟩ := hd
    by_cases hk : k = id
    · subst hk
      by_cases hi : k = i <;> simp [getElementById, setInnerHTML, hi]
    · by_cases hi : k = i
      · subst hi
        simp [getElementById, setInnerHTML, hk]
      · simp [getElementById, setInnerHTML, hk, hi, ih]

/-- The crop-recommendations container lookup always names a present
element. -/
theorem crContainerId_isSome {dom : Dom} {cid : String}
    (h : crContainerId dom = some cid) : (getElementById dom cid).isSome := by
  unfold crContainerId at h
  cases h1 : getElementById dom "cropsData" with
  | some w =>
    rw [h1] at h
    cases h
    simp [h1]
  | none =>
    rw [h1] at h
    cases h2 : getElementById dom "cropRecommendationsData" with
    | some w =>
      rw [h2] at h
      cases h
      simp [h2]
    | none =>
      rw [h2] at h
      cases h

/-- Writing innerHTML does not change which crop-recommendations container
is found. -/
theorem crContainerId_setInnerHTML (dom : Dom) (id v : String) :
    crContainerId (setInnerHTML dom id v) = crContainerId dom := by
  unfold crContainerId
  cases h1 : getElementById dom "cropsData" with
  | some w =>
    have : (getElementById (setInnerHTML dom id v) "cropsData").isSome = true := by
      rw [isSome_getElementById_setInnerHTML, h1]
      rfl
    obtain ⟨w', hw'⟩ := Option.isSome_iff_exists.mp this
    rw [hw']
  | none =>
    have : (getElementById (setInnerHTML dom id v) "cropsData").isSome = false := by
      rw [isSome_getElementById_setInnerHTML, h1]
      rfl
    have hn : getElementById (setInnerHTML dom id v) "cropsData" = none := by
      rw [← Option.not_isSome_iff_eq_none]
      simp [this]
    rw [hn]
    cases h2 : getElementById dom "cropRecommendationsData" with
    | some w =>
      have : (getElementById (setInnerHTML dom id v) "cropRecommendationsData").isSome = true := by
        rw [isSome_getElementById_setInnerHTML, h2]
        rfl
      obtain ⟨w', hw'⟩ := Option.isSome_iff_exists.mp this
      rw [hw']
    | none =>
      have : (getElementById (setInnerHTML dom id v) "cropRecommendationsData").isSome = false := by
        rw [isSome_getElementById_setInnerHTML, h2]
        rfl
      have hn2 : getElementById (setInnerHTML dom id v) "cropRecommendationsData" = none := by
        rw [← Option.not_isSome_iff_eq_none]
        simp [this]
      rw [hn2]

end Krishimitra

namespace Krishimitra

/-- C1: in each of the four service handlers, every failure — the fetch
rejecting, `response.json()` throwing, or the post-parse
extraction/rendering step throwing — is caught by the handler's
`try`/`catch` (the handlers are total functions of the model, so no
exception reaches the caller), and the handler's target container ends up
holding that handler's fixed localized error message. -/
theorem c1_failures_caught_set_error_message :
    ∀ (g : Globals) (dom : Dom) (fo : FetchOutcome) (now : Nat),
      ((fo = .reject ∨ fo = .jsonError ∨ ∃ d, fo = .ok d ∧ mpBody d now = .error ()) →
        (getElementById dom "pricesData").isSome →
        getElementById (loadMarketPrices g dom fo now).1 "pricesData" = some mpErrorMsg)
      ∧ ((fo = .reject ∨ fo = .jsonError ∨ ∃ d, fo = .ok d ∧ weatherBody d = .error ()) →
        (getElementById dom "weatherData").isSome →
        getElementById (loadWeatherData g dom fo now).1 "weatherData" = some weatherErrorMsg)
      ∧ ((fo = .reject ∨ fo = .jsonError ∨ ∃ d, fo = .ok d ∧ schemesBody d = .error ()) →
        (getElementById dom "schemesData").isSome →
        getElementById (loadGovernmentSchemes g dom fo now).1 "schemesData" = some schemesErrorMsg)
      ∧ (∀ cid, (fo = .reject ∨ fo = .jsonError ∨ ∃ d, fo = .ok d ∧ crBody d = .error ()) →
        crContainerId dom = some cid →
        getElementById (loadCropRecommendations g dom fo now).1 cid = some crErrorMsg) := by
  intro g dom fo now
  refine ⟨?_, ?_, ?_, ?_⟩
  · intro hf hs
    obtain ⟨w, hw⟩ := Option.isSome_iff_exists.mp hs
    have h1 : getElementById (setInnerHTML dom "pricesData" mpLoadingMsg) "pricesData" =
        some mpLoadingMsg := getElementById_setInnerHTML_self hs
    rcases hf with rfl | rfl | ⟨d, rfl, hb⟩
    · simp only [loadMarketPrices, hw, h1]
      exact getElementById_setInnerHTML_self (by rw [h1]; rfl)
    · simp only [loadMarketPrices, hw, h1]
      exact getElementById_setInnerHTML_self (by rw [h1]; rfl)
    · simp only [loadMarketPrices, hw, h1, hb]
      exact getElementById_setInnerHTML_self (by rw [h1]; rfl)
  · intro hf hs
    obtain ⟨w, hw⟩ := Option.isSome_iff_exists.mp hs
    have h1 : getElementById (setInnerHTML dom "weatherData" weatherLoadingMsg) "weatherData" =
        some weatherLoadingMsg := getElementById_setInnerHTML_self hs
    rcases hf with rfl | rfl | ⟨d, rfl, hb⟩
    · simp only [loadWeatherData, hw, h1]
      exact getElementById_setInnerHTML_self (by rw [h1]; rfl)
    · simp only [loadWeatherData, hw, h1]
      exact getElementById_setInnerHTML_self (by rw [h1]; rfl)
    · simp only [loadWeatherData, hw, h1, hb]
      exact getElementById_setInnerHTML_self (by rw [h1]; rfl)
  · intro hf hs
    obtain ⟨w, hw⟩ := Option.isSome_iff_exists.mp hs
    have h1 : getElementById (setInnerHTML dom "schemesData" schemesLoadingMsg) "schemesData" =
        some schemesLoadingMsg := getElementById_setInnerHTML_self hs
    rcases hf with rfl | rfl | ⟨d, rfl, hb⟩
    · simp only [loadGovernmentSchemes, hw, h1]
      exact getElementById_setInnerHTML_self (by rw [h1]; rfl)
    · simp only [loadGovernmentSchemes, hw, h1]
      exact getElementById_setInnerHTML_self (by rw [h1]; rfl)
    · simp only [loadGovernmentSchemes, hw, h1, hb]
      exact getElementById_setInnerHTML_self (by rw [h1]; rfl)
  · intro cid hf hc
    have hs : (getElementById dom cid).isSome := crContainerId_isSome hc
    have h2 : crContainerId (setInnerHTML dom cid crLoadingMsg) = some cid := by
      rw [crContainerId_setInnerHTML, hc]
    rcases hf with rfl | rfl | ⟨d, rfl, hb⟩
    · simp only [loadCropRecommendations, hc, h2]
      exact getElementById_setInnerHTML_self
        (by rw [isSome_getElementById_setInnerHTML]; exact hs)
    · simp only [loadCropRecommendations, hc, h2]
      exact getElementById_setInnerHTML_self
        (by rw [isSome_getElementById_setInnerHTML]; exact hs)
    · simp only [loadCropRecommendations, hc, h2, hb]
      exact getElementById_setInnerHTML_self
        (by rw [isSome_getElementById_setInnerHTML]; exact hs)

/-- Witness for C1: a null body makes the extraction throw in the market
and crop handlers; a rejected fetch and a json failure hit the other two.
In all four cases the container holds the handler's error message. -/
theorem c1_failures_caught_set_error_message_witness :
    getElementById (loadMarketPrices initialGlobals allServicesDom
        (.ok .null) 0).1 "pricesData" = some mpErrorMsg
    ∧ getElementById (loadWeatherData initialGlobals allServicesDom
        .reject 0).1 "weatherData" = some weatherErrorMsg
    ∧ getElementById (loadGovernmentSchemes initialGlobals allServicesDom
        .jsonError 0).1 "schemesData" = some schemesErrorMsg
    ∧ getElementById (loadCropRecommendations initialGlobals allServicesDom
        (.ok .null) 0).1 "cropsData" = some crErrorMsg := by
  refine ⟨?_, ?_, ?_, ?_⟩
  · exact (c1_failures_caught_set_error_message initialGlobals allServicesDom
      (.ok .null) 0).1 (Or.inr (Or.inr ⟨.null, rfl, rfl⟩)) (by decide)
  · exact (c1_failures_caught_set_error_message initialGlobals allServicesDom
      .reject 0).2.1 (Or.inl rfl) (by decide)
  · exact (c1_failures_caught_set_error_message initialGlobals allServicesDom
      .jsonError 0).2.2.1 (Or.inr (Or.inl rfl)) (by decide)
  · exact (c1_failures_caught_set_error_message initialGlobals allServicesDom
      (.ok .null) 0).2.2.2 "cropsData" (Or.inr (Or.inr ⟨.null, rfl, rfl⟩)) (by decide)

/-- C9: when a handler's target container is absent from the document (for
the crop handler: both candidate ids are absent), the handler returns with
the DOM unchanged and an empty event trace — no fetch is issued and no
element is written. -/
theorem c9_missing_container_no_effect :
    ∀ (g : Globals) (dom : Dom) (fo : FetchOutcome) (now : Nat),
      (getElementById dom "pricesData" = none →
        loadMarketPrices g dom fo now = (dom, []))
      ∧ (getElementById dom "weatherData" = none →
        loadWeatherData g dom fo now = (dom, []))
      ∧ (getElementById dom "schemesData" = none →
        loadGovernmentSchemes g dom fo now = (dom, []))
      ∧ (getElementById dom "cropsData" = none →
        getElementById dom "cropRecommendationsData" = none →
        loadCropRecommendations g dom fo now = (dom, [])) := by
  intro g dom fo now
  refine ⟨?_, ?_, ?_, ?_⟩
  · intro h
    simp only [loadMarketPrices, h]
  · intro h
    simp only [loadWeatherData, h]
  · intro h
    simp only [loadGovernmentSchemes, h]
  · intro h1 h2
    have hc : crContainerId dom = none := by
      simp [crContainerId, h1, h2]
    simp only [loadCropRecommendations, hc]

/-- Witness for C9 on the empty document. -/
theorem c9_missing_container_no_effect_witness :
    loadMarketPrices initialGlobals [] .reject 0 = ([], [])
    ∧ loadWeatherData initialGlobals [] .jsonError 3 = ([], [])
    ∧ loadGovernmentSchemes initialGlobals [] (.ok .null) 0 = ([], [])
    ∧ loadCropRecommendations initialGlobals [] .reject 0 = ([], []) :=
  ⟨(c9_missing_container_no_effect initialGlobals [] .reject 0).1 rfl,
   (c9_missing_container_no_effect initialGlobals [] .jsonError 3).2.1 rfl,
   (c9_missing_container_no_effect initialGlobals [] (.ok .null) 0).2.2.1 rfl,
   (c9_missing_container_no_effect initialGlobals [] .reject 0).2.2.2 rfl rfl⟩

/-- C4: `loadServiceData` dispatches the four known service names to their
handlers; for `pest-control`, `ai-assistant` and every other string it
leaves the DOM unchanged and issues no fetch (an empty event trace). -/
theorem c4_dispatch :
    ∀ (g : Globals) (dom : Dom) (fo : FetchOutcome) (now : Nat),
      loadServiceData "government-schemes" g dom fo now = loadGovernmentSchemes g dom fo now
      ∧ loadServiceData "crop-recommendations" g dom fo now = loadCropRecommendations g dom fo now
      ∧ loadServiceData "weather" g dom fo now = loadWeatherData g dom fo now
      ∧ loadServiceData "market-prices" g dom fo now = loadMarketPrices g dom fo now
      ∧ (∀ s : String, s ≠ "government-schemes" → s ≠ "crop-recommendations" →
          s ≠ "weather" → s ≠ "market-prices" →
          loadServiceData s g dom fo now = (dom, [])) := by
  intro g dom fo now
  refine ⟨by simp [loadServiceData], by simp [loadServiceData],
    by simp [loadServiceData], by simp [loadServiceData], ?_⟩
  intro s h1 h2 h3 h4
  simp [loadServiceData, h1, h2, h3, h4]

/-- Witness for C4: the `pest-control` service performs no fetch and no
DOM mutation. -/
theorem c4_dispatch_witness :
    loadServiceData "pest-control" initialGlobals allServicesDom .reject 0 =
      (allServicesDom, []) :=
  (c4_dispatch initialGlobals allServicesDom .reject 0).2.2.2.2 "pest-control"
    (by decide) (by decide) (by decide) (by decide)

end Krishimitra

namespace Krishimitra

/-!
## The handlers as instances of the generic handler
-/

/-- A found container id is one of the configured ids. -/
theorem firstPresentId_mem {dom : Dom} :
    ∀ {ids : List String} {cid : String},
      firstPresentId dom ids = some cid → cid ∈ ids := by
  intro ids
  induction ids with
  | nil => intro cid h; cases h
  | cons a rest ih =>
    intro cid h
    unfold firstPresentId at h
    cases ha : getElementById dom a with
    | some w =>
      rw [ha] at h
      cases h
      exact List.mem_cons_self a rest
    | none =>
      rw [ha] at h
      exact List.mem_cons_of_mem a (ih h)

/-- A found container id names a present element. -/
theorem firstPresentId_isSome {dom : Dom} :
    ∀ {ids : List String} {cid : String},
      firstPresentId dom ids = some cid → (getElementById dom cid).isSome := by
  intro ids
  induction ids with
  | nil => intro cid h; cases h
  | cons a rest ih =>
    intro cid h
    unfold firstPresentId at h
    cases ha : getElementById dom a with
    | some w =>
      rw [ha] at h
      cases h
      simp [ha]
    | none =>
      rw [ha] at h
      exact ih h

/-- The crop handler's two-id lookup is the generic first-present-id
lookup. -/
theorem crContainerId_eq_firstPresentId (dom : Dom) :
    crContainerId dom = firstPresentId dom ["cropsData", "cropRecommendationsData"] := by
  simp only [crContainerId, firstPresentId]

/-- `loadMarketPrices` is the generic handler at `mpConfig`. -/
theorem loadMarketPrices_eq_generic (g : Globals) (dom : Dom) (fo : FetchOutcome) (now : Nat) :
    loadMarketPrices g dom fo now = runGenericService mpConfig g dom fo now := by
  simp only [loadMarketPrices, runGenericService, mpConfig, firstPresentId]
  cases hc : getElementById dom "pricesData" with
  | none => rfl
  | some w =>
    cases fo with
    | reject =>
      cases h2 : getElementById (setInnerHTML dom "pricesData" mpLoadingMsg) "pricesData" <;>
        simp [firstPresentId, h2]
    | jsonError =>
      cases h2 : getElementById (setInnerHTML dom "pricesData" mpLoadingMsg) "pricesData" <;>
        simp [firstPresentId, h2]
    | ok d =>
      cases hb : mpBody d now with
      | error u =>
        cases h2 : getElementById (setInnerHTML dom "pricesData" mpLoadingMsg) "pricesData" <;>
          simp [firstPresentId, hb, h2]
      | ok o => cases o <;> simp [hb]

/-- `loadWeatherData` is the generic handler at `weatherConfig`. -/
theorem loadWeatherData_eq_generic (g : Globals) (dom : Dom) (fo : FetchOutcome) (now : Nat) :
    loadWeatherData g dom fo now = runGenericService weatherConfig g dom fo now := by
  simp only [loadWeatherData, runGenericService, weatherConfig, firstPresentId]
  cases hc : getElementById dom "weatherData" with
  | none => rfl
  | some w =>
    cases fo with
    | reject =>
      cases h2 : getElementById (setInnerHTML dom "weatherData" weatherLoadingMsg) "weatherData" <;>
        simp [firstPresentId, h2]
    | jsonError =>
      cases h2 : getElementById (setInnerHTML dom "weatherData" weatherLoadingMsg) "weatherData" <;>
        simp [firstPresentId, h2]
    | ok d =>
      cases hb : weatherBody d with
      | error u =>
        cases h2 : getElementById (setInnerHTML dom "weatherData" weatherLoadingMsg) "weatherData" <;>
          simp [firstPresentId, hb, h2]
      | ok o => cases o <;> simp [hb]

/-- `loadGovernmentSchemes` is the generic handler at `schemesConfig`. -/
theorem loadGovernmentSchemes_eq_generic (g : Globals) (dom : Dom) (fo : FetchOutcome) (now : Nat) :
    loadGovernmentSchemes g dom fo now = runGenericService schemesConfig g dom fo now := by
  simp only [loadGovernmentSchemes, runGenericService, schemesConfig, firstPresentId]
  cases hc : getElementById dom "schemesData" with
  | none => rfl
  | some w =>
    cases fo with
    | reject =>
      cases h2 : getElementById (setInnerHTML dom "schemesData" schemesLoadingMsg) "schemesData" <;>
        simp [firstPresentId, h2]
    | jsonError =>
      cases h2 : getElementById (setInnerHTML dom "schemesData" schemesLoadingMsg) "schemesData" <;>
        simp [firstPresentId, h2]
    | ok d =>
      cases hb : schemesBody d with
      | error u =>
        cases h2 : getElementById (setInnerHTML dom "schemesData" schemesLoadingMsg) "schemesData" <;>
          simp [firstPresentId, hb, h2]
      | ok o => cases o <;> simp [hb]

/-- `loadCropRecommendations` is the generic handler at `crConfig`. -/
theorem loadCropRecommendations_eq_generic (g : Globals) (dom : Dom) (fo : FetchOutcome) (now : Nat) :
    loadCropRecommendations g dom fo now = runGenericService crConfig g dom fo now := by
  simp only [loadCropRecommendations, runGenericService, crConfig,
    ← crContainerId_eq_firstPresentId]

end Krishimitra

namespace Krishimitra

/-!
## Trace shape of a handler invocation
-/

/-- Every invocation of the generic handler either does nothing (no
container), or emits exactly the loading write followed by the fetch,
followed by writes only. -/
theorem runGenericService_trace (cfg : ServiceConfig) (g : Globals) (dom : Dom)
    (fo : FetchOutcome) (now : Nat) :
    (runGenericService cfg g dom fo now).2 = []
    ∨ ∃ cid rest, firstPresentId dom cfg.containerIds = some cid
        ∧ (runGenericService cfg g dom fo now).2 =
            Event.setHTML cid cfg.loadingMsg :: Event.fetch (cfg.url g) :: rest
        ∧ ∀ e ∈ rest, ∀ u, e ≠ Event.fetch u := by
  cases hc : firstPresentId dom cfg.containerIds with
  | none =>
    left
    simp only [runGenericService, hc]
  | some cid =>
    right
    refine ⟨cid, ?_⟩
    cases fo with
    | reject =>
      cases h2 : firstPresentId (setInnerHTML dom cid cfg.loadingMsg) cfg.containerIds with
      | some cid2 =>
        refine ⟨[Event.setHTML cid2 cfg.errorMsg], rfl, ?_, ?_⟩
        · simp only [runGenericService, hc, h2]
          rfl
        · intro e he u
          simp only [List.mem_singleton] at he
          subst he
          simp
      | none =>
        refine ⟨[], rfl, ?_, ?_⟩
        · simp only [runGenericService, hc, h2]
        · intro e he u
          simp at he
    | jsonError =>
      cases h2 : firstPresentId (setInnerHTML dom cid cfg.loadingMsg) cfg.containerIds with
      | some cid2 =>
        refine ⟨[Event.setHTML cid2 cfg.errorMsg], rfl, ?_, ?_⟩
        · simp only [runGenericService, hc, h2]
          rfl
        · intro e he u
          simp only [List.mem_singleton] at he
          subst he
          simp
      | none =>
        refine ⟨[], rfl, ?_, ?_⟩
        · simp only [runGenericService, hc, h2]
        · intro e he u
          simp at he
    | ok d =>
      cases hb : cfg.body d now with
      | error u =>
        cases h2 : firstPresentId (setInnerHTML dom cid cfg.loadingMsg) cfg.containerIds with
        | some cid2 =>
          refine ⟨[Event.setHTML cid2 cfg.errorMsg], rfl, ?_, ?_⟩
          · simp only [runGenericService, hc, hb, h2]
            rfl
          · intro e he u
            simp only [List.mem_singleton] at he
            subst he
            simp
        | none =>
          refine ⟨[], rfl, ?_, ?_⟩
          · simp only [runGenericService, hc, hb, h2]
          · intro e he u
            simp at he
      | ok o =>
        cases o with
        | none =>
          refine ⟨[Event.setHTML cid cfg.unavailableMsg], rfl, ?_, ?_⟩
          · simp only [runGenericService, hc, hb]
            rfl
          · intro e he u
            simp only [List.mem_singleton] at he
            subst he
            simp
        | some html =>
          refine ⟨[Event.setHTML cid html], rfl, ?_, ?_⟩
          · simp only [runGenericService, hc, hb]
            rfl
          · intro e he u
            simp only [List.mem_singleton] at he
            subst he
            simp

/-- In a trace of the shape emitted by a handler, a fetch can only sit at
position one, right after the loading write, so the replayed document at
the moment of the fetch shows the loading placeholder. -/
theorem fetch_after_loading {dom : Dom} {cid lo url : String} {rest : List Event}
    (hs : (getElementById dom cid).isSome)
    (hrest : ∀ e ∈ rest, ∀ u, e ≠ Event.fetch u) :
    ∀ (i : Nat) (u' : String),
      (Event.setHTML cid lo :: Event.fetch url :: rest).get? i = some (Event.fetch u') →
      getElementById
        (replay dom ((Event.setHTML cid lo :: Event.fetch url :: rest).take i)) cid =
        some lo := by
  intro i u' hi
  match i with
  | 0 => simp at hi
  | 1 =>
    show getElementById (replay dom [Event.setHTML cid lo]) cid = some lo
    simpa [replay] using getElementById_setInnerHTML_self hs
  | n + 2 =>
    have hm : Event.fetch u' ∈ rest := by
      simp only [List.get?_cons_succ] at hi
      exact List.get?_mem hi
    exact absurd rfl (hrest _ hm u')

end Krishimitra

namespace Krishimitra

/-- C5: in every invocation of each handler in which the target container
exists, the fetch appears in the event trace only after the write of the
loading placeholder, and replaying the trace up to the fetch leaves the
container showing exactly the loading placeholder — the fetch is never
issued while the container still shows its previous content. -/
theorem c5_loading_shown_before_fetch :
    ∀ (g : Globals) (dom : Dom) (fo : FetchOutcome) (now : Nat) (i : Nat) (u : String),
      ((loadMarketPrices g dom fo now).2.get? i = some (Event.fetch u) →
        getElementById (replay dom ((loadMarketPrices g dom fo now).2.take i))
          "pricesData" = some mpLoadingMsg)
      ∧ ((loadWeatherData g dom fo now).2.get? i = some (Event.fetch u) →
        getElementById (replay dom ((loadWeatherData g dom fo now).2.take i))
          "weatherData" = some weatherLoadingMsg)
      ∧ ((loadGovernmentSchemes g dom fo now).2.get? i = some (Event.fetch u) →
        getElementById (replay dom ((loadGovernmentSchemes g dom fo now).2.take i))
          "schemesData" = some schemesLoadingMsg)
      ∧ (∀ cid, crContainerId dom = some cid →
        (loadCropRecommendations g dom fo now).2.get? i = some (Event.fetch u) →
        getElementById (replay dom ((loadCropRecommendations g dom fo now).2.take i))
          cid = some crLoadingMsg) := by
  intro g dom fo now i u
  refine ⟨?_, ?_, ?_, ?_⟩
  · intro hi
    rw [loadMarketPrices_eq_generic] at hi ⊢
    rcases runGenericService_trace mpConfig g dom fo now with htr | ⟨cid, rest, hfp, htr, hrest⟩
    · simp [htr] at hi
    · have hcid : cid = "pricesData" := by
        have := firstPresentId_mem hfp
        simpa [mpConfig] using this
      subst hcid
      have hs : (getElementById dom "pricesData").isSome := firstPresentId_isSome hfp
      rw [htr] at hi ⊢
      exact fetch_after_loading hs hrest i u hi
  · intro hi
    rw [loadWeatherData_eq_generic] at hi ⊢
    rcases runGenericService_trace weatherConfig g dom fo now with htr | ⟨cid, rest, hfp, htr, hrest⟩
    · simp [htr] at hi
    · have hcid : cid = "weatherData" := by
        have := firstPresentId_mem hfp
        simpa [weatherConfig] using this
      subst hcid
      have hs : (getElementById dom "weatherData").isSome := firstPresentId_isSome hfp
      rw [htr] at hi ⊢
      exact fetch_after_loading hs hrest i u hi
  · intro hi
    rw [loadGovernmentSchemes_eq_generic] at hi ⊢
    rcases runGenericService_trace schemesConfig g dom fo now with htr | ⟨cid, rest, hfp, htr, hrest⟩
    · simp [htr] at hi
    · have hcid : cid = "schemesData" := by
        have := firstPresentId_mem hfp
        simpa [schemesConfig] using this
      subst hcid
      have hs : (getElementById dom "schemesData").isSome := firstPresentId_isSome hfp
      rw [htr] at hi ⊢
      exact fetch_after_loading hs hrest i u hi
  · intro cid hcc hi
    rw [loadCropRecommendations_eq_generic] at hi ⊢
    rcases runGenericService_trace crConfig g dom fo now with htr | ⟨cid2, rest, hfp, htr, hrest⟩
    · simp [htr] at hi
    · have hcid : cid2 = cid := by
        rw [crContainerId_eq_firstPresentId] at hcc
        have : some cid = some cid2 := hcc.symm.trans hfp
        exact (Option.some.inj this).symm
      subst hcid
      have hs := firstPresentId_isSome hfp
      rw [htr] at hi ⊢
      exact fetch_after_loading hs hrest i u hi

/-- Witness for C5 at concrete invocations of the market and crop
handlers. -/
theorem c5_loading_shown_before_fetch_witness :
    (loadMarketPrices initialGlobals pricesOnlyDom .reject 0).2.get? 1 =
        some (Event.fetch (mpUrl initialGlobals))
    ∧ getElementById
        (replay pricesOnlyDom
          ((loadMarketPrices initialGlobals pricesOnlyDom .reject 0).2.take 1))
        "pricesData" = some mpLoadingMsg
    ∧ crContainerId allServicesDom = some "cropsData"
    ∧ (loadCropRecommendations initialGlobals allServicesDom .reject 0).2.get? 1 =
        some (Event.fetch (advisoriesUrl initialGlobals))
    ∧ getElementById
        (replay allServicesDom
          ((loadCropRecommendations initialGlobals allServicesDom .reject 0).2.take 1))
        "cropsData" = some crLoadingMsg := by
  have h1 : (loadMarketPrices initialGlobals pricesOnlyDom .reject 0).2.get? 1 =
      some (Event.fetch (mpUrl initialGlobals)) := by decide
  have hcc : crContainerId allServicesDom = some "cropsData" := by decide
  have h2 : (loadCropRecommendations initialGlobals allServicesDom .reject 0).2.get? 1 =
      some (Event.fetch (advisoriesUrl initialGlobals)) := by decide
  exact ⟨h1,
    (c5_loading_shown_before_fetch initialGlobals pricesOnlyDom .reject 0 1
      (mpUrl initialGlobals)).1 h1,
    hcc, h2,
    (c5_loading_shown_before_fetch initialGlobals allServicesDom .reject 0 1
      (advisoriesUrl initialGlobals)).2.2.2 "cropsData" hcc h2⟩

end Krishimitra

namespace Krishimitra

/-!
## Time dependence of the market renderer
-/

/-- With a truthy `timestamp` in the body, the market header does not
depend on the invocation time. -/
theorem mpHeader_time_indep {data ts : JsVal}
    (h : jsGet data "timestamp" = .ok ts) (ht : truthy ts = true) (n1 n2 : Nat) :
    mpHeader data n1 = mpHeader data n2 := by
  unfold mpHeader
  simp only [bind, Except.bind, h, jsOrV, ht, if_true]

/-- With a truthy `timestamp`, the full market markup does not depend on
the invocation time. -/
theorem renderMarketPrices_time_indep {data ts : JsVal}
    (h : jsGet data "timestamp" = .ok ts) (ht : truthy ts = true)
    (crops nearbyMandis : JsVal) (n1 n2 : Nat) :
    renderMarketPrices data crops nearbyMandis n1 =
      renderMarketPrices data crops nearbyMandis n2 := by
  unfold renderMarketPrices
  rw [mpHeader_time_indep h ht n1 n2]

/-- With a truthy `timestamp`, the market body does not depend on the
invocation time. -/
theorem mpBody_time_indep {data ts : JsVal}
    (h : jsGet data "timestamp" = .ok ts) (ht : truthy ts = true) (n1 n2 : Nat) :
    mpBody data n1 = mpBody data n2 := by
  have hr : ∀ c nm, renderMarketPrices data c nm n1 = renderMarketPrices data c nm n2 :=
    fun c nm => renderMarketPrices_time_indep h ht c nm n1 n2
  unfold mpBody
  simp only [hr]

/-- With a truthy `timestamp`, the whole market handler does not depend on
the invocation time. -/
theorem loadMarketPrices_time_indep {data ts : JsVal} (g : Globals) (dom : Dom)
    (h : jsGet data "timestamp" = .ok ts) (ht : truthy ts = true) (n1 n2 : Nat) :
    loadMarketPrices g dom (.ok data) n1 = loadMarketPrices g dom (.ok data) n2 := by
  have hb := mpBody_time_indep h ht n1 n2
  simp only [loadMarketPrices, hb]

/-- The market handler's rendered markup differs between two invocation
times when the body carries no timestamp: the renderer embeds
`Date.now()`. -/
theorem mpLookup_time_ne :
    getElementById (loadMarketPrices initialGlobals pricesOnlyDom
      (.ok mpDataNoTimestamp) 0).1 "pricesData" ≠
    getElementById (loadMarketPrices initialGlobals pricesOnlyDom
      (.ok mpDataNoTimestamp) 60000).1 "pricesData" := by
  decide

end Krishimitra

namespace Krishimitra

/-- C7 counterexample: two invocations of `loadMarketPrices` receiving the
identical response body (non-empty crops, no timestamp) at two different
times leave the container with different HTML — the successful rendering
is not a pure function of the response data. -/
theorem c7_counterexample_market_markup_time_dependent :
    getElementById (loadMarketPrices initialGlobals pricesOnlyDom
      (.ok mpDataNoTimestamp) 0).1 "pricesData" ≠
    getElementById (loadMarketPrices initialGlobals pricesOnlyDom
      (.ok mpDataNoTimestamp) 60000).1 "pricesData" :=
  mpLookup_time_ne

/-- C7, amended: the weather, schemes and crop handlers are invariant in
the invocation time on every input, and the market handler is invariant
whenever the body carries a truthy `timestamp` (and on the failure
outcomes); only a successful market render of a timestamp-less body
embeds the invocation time. -/
theorem c7_amended_render_determinism :
    ∀ (g : Globals) (dom : Dom) (fo : FetchOutcome) (n1 n2 : Nat),
      loadWeatherData g dom fo n1 = loadWeatherData g dom fo n2
      ∧ loadGovernmentSchemes g dom fo n1 = loadGovernmentSchemes g dom fo n2
      ∧ loadCropRecommendations g dom fo n1 = loadCropRecommendations g dom fo n2
      ∧ (∀ data ts, fo = .ok data → jsGet data "timestamp" = .ok ts →
          truthy ts = true →
          loadMarketPrices g dom fo n1 = loadMarketPrices g dom fo n2)
      ∧ (fo = .reject ∨ fo = .jsonError →
          loadMarketPrices g dom fo n1 = loadMarketPrices g dom fo n2) := by
  intro g dom fo n1 n2
  refine ⟨rfl, rfl, rfl, ?_, ?_⟩
  · rintro data ts rfl h ht
    exact loadMarketPrices_time_indep g dom h ht n1 n2
  · rintro (rfl | rfl) <;> rfl

/-- Witness for the amended C7: a body with a truthy timestamp renders
identically at two different times. -/
theorem c7_amended_render_determinism_witness :
    loadMarketPrices initialGlobals pricesOnlyDom (.ok mpDataWithTimestamp) 0 =
      loadMarketPrices initialGlobals pricesOnlyDom (.ok mpDataWithTimestamp) 60000 :=
  (c7_amended_render_determinism initialGlobals pricesOnlyDom
      (.ok mpDataWithTimestamp) 0 60000).2.2.2.1 mpDataWithTimestamp
    (.num 1700000000000) rfl rfl (by decide)

/-- C8 counterexample: no instantiation of the spec's helper — fetch,
pure data-to-markup render, fixed fallback strings, single container id —
equals `loadMarketPrices` on every input, because the helper's output is
independent of the invocation time while the handler's markup is not; so
the four handlers are not all instances of that helper. -/
theorem c8_counterexample_not_instances_of_pure_helper :
    ¬ ((∃ (url : String) (mapper : JsVal → Option JsVal) (render : JsVal → String)
          (cid lm um em : String),
          ∀ (g : Globals) (dom : Dom) (fo : FetchOutcome) (now : Nat),
            specHelper url mapper render cid lm um em g dom fo now =
              loadMarketPrices g dom fo now)
      ∧ (∃ (url : String) (mapper : JsVal → Option JsVal) (render : JsVal → String)
          (cid lm um em : String),
          ∀ (g : Globals) (dom : Dom) (fo : FetchOutcome) (now : Nat),
            specHelper url mapper render cid lm um em g dom fo now =
              loadWeatherData g dom fo now)
      ∧ (∃ (url : String) (mapper : JsVal → Option JsVal) (render : JsVal → String)
          (cid lm um em : String),
          ∀ (g : Globals) (dom : Dom) (fo : FetchOutcome) (now : Nat),
            specHelper url mapper render cid lm um em g dom fo now =
              loadGovernmentSchemes g dom fo now)
      ∧ (∃ (url : String) (mapper : JsVal → Option JsVal) (render : JsVal → String)
          (cid lm um em : String),
          ∀ (g : Globals) (dom : Dom) (fo : FetchOutcome) (now : Nat),
            specHelper url mapper render cid lm um em g dom fo now =
              loadCropRecommendations g dom fo now)) := by
  rintro ⟨⟨url, mapper, render, cid, lm, um, em, h⟩, -, -, -⟩
  have h1 := h initialGlobals pricesOnlyDom (.ok mpDataNoTimestamp) 0
  have h2 := h initialGlobals pricesOnlyDom (.ok mpDataNoTimestamp) 60000
  have hsame : specHelper url mapper render cid lm um em initialGlobals
        pricesOnlyDom (.ok mpDataNoTimestamp) 0 =
      specHelper url mapper render cid lm um em initialGlobals
        pricesOnlyDom (.ok mpDataNoTimestamp) 60000 := rfl
  have heq : loadMarketPrices initialGlobals pricesOnlyDom (.ok mpDataNoTimestamp) 0 =
      loadMarketPrices initialGlobals pricesOnlyDom (.ok mpDataNoTimestamp) 60000 :=
    h1.symm.trans (hsame.trans h2)
  exact mpLookup_time_ne (congrArg (fun p => getElementById p.1 "pricesData") heq)

/-- C8, amended: each of the four handlers is an instance of the one
generic handler once the helper is parameterized by an ordered
container-id fallback list, the three per-service localized messages, the
endpoint URL over the location globals, and a combined shape-mapper/render
function that may throw and receives the invocation time. -/
theorem c8_amended_handlers_are_generic_instances :
    (∃ cfg : ServiceConfig, ∀ (g : Globals) (dom : Dom) (fo : FetchOutcome) (now : Nat),
        runGenericService cfg g dom fo now = loadMarketPrices g dom fo now)
    ∧ (∃ cfg : ServiceConfig, ∀ (g : Globals) (dom : Dom) (fo : FetchOutcome) (now : Nat),
        runGenericService cfg g dom fo now = loadWeatherData g dom fo now)
    ∧ (∃ cfg : ServiceConfig, ∀ (g : Globals) (dom : Dom) (fo : FetchOutcome) (now : Nat),
        runGenericService cfg g dom fo now = loadGovernmentSchemes g dom fo now)
    ∧ (∃ cfg : ServiceConfig, ∀ (g : Globals) (dom : Dom) (fo : FetchOutcome) (now : Nat),
        runGenericService cfg g dom fo now = loadCropRecommendations g dom fo now) :=
  ⟨⟨mpConfig, fun g dom fo now => (loadMarketPrices_eq_generic g dom fo now).symm⟩,
   ⟨weatherConfig, fun g dom fo now => (loadWeatherData_eq_generic g dom fo now).symm⟩,
   ⟨schemesConfig, fun g dom fo now => (loadGovernmentSchemes_eq_generic g dom fo now).symm⟩,
   ⟨crConfig, fun g dom fo now => (loadCropRecommendations_eq_generic g dom fo now).symm⟩⟩

end Krishimitra

namespace Krishimitra

/-- C6 counterexample: a response whose `crops` field is the empty array
while `market_prices.top_crops` is a non-empty list.  Because an empty
array is truthy, `data.crops || data.market_prices?.top_crops || []`
selects the empty array and the handler shows the localized
data-unavailable message instead of rendering `top_crops`. -/
theorem c6_counterexample_empty_crops_array_suppresses_fallback :
    jsGet mpDataEmptyCropsWithTop "crops" = .ok (.arr [])
    ∧ jsGet mpDataEmptyCropsWithTop "market_prices" =
        .ok (.obj [("top_crops", .arr [wheatCrop])])
    ∧ getElementById (loadMarketPrices initialGlobals pricesOnlyDom
        (.ok mpDataEmptyCropsWithTop) 0).1 "pricesData" = some mpUnavailableMsg :=
  ⟨rfl, rfl, by decide⟩

/-- C6, amended: `loadMarketPrices` renders `data.crops` whenever that
field is truthy and non-empty; the fallback to
`data.market_prices?.top_crops` is taken only when `data.crops` is falsy
(absent or null), not when it is an empty list; and whenever the selected
list is falsy, empty, or has no positive `length`, the container gets the
localized data-unavailable message. -/
theorem c6_amended_crop_extraction_fallback :
    ∀ (g : Globals) (dom : Dom) (data : JsVal) (now : Nat),
      (getElementById dom "pricesData").isSome →
      ((∀ c, jsGet data "crops" = .ok c → truthy c = true →
          mpCropsSel data = .ok c
          ∧ (jsLenPos c = true → ∀ nm html, mpMandisSel data = .ok nm →
              renderMarketPrices data c nm now = .ok html →
              getElementById (loadMarketPrices g dom (.ok data) now).1 "pricesData" =
                some html)
          ∧ (jsLenPos c = false → ∀ nm, mpMandisSel data = .ok nm →
              getElementById (loadMarketPrices g dom (.ok data) now).1 "pricesData" =
                some mpUnavailableMsg))
        ∧ (∀ c mp, jsGet data "crops" = .ok c → truthy c = false →
            jsGet data "market_prices" = .ok mp →
            mpCropsSel data = .ok (jsOrV (jsGetOpt mp "top_crops") (JsVal.arr [])))
        ∧ (∀ c nm, mpCropsSel data = .ok c → (truthy c && jsLenPos c) = false →
            mpMandisSel data = .ok nm →
            getElementById (loadMarketPrices g dom (.ok data) now).1 "pricesData" =
              some mpUnavailableMsg)) := by
  intro g dom data now hs
  obtain ⟨w, hw⟩ := Option.isSome_iff_exists.mp hs
  have hset : ∀ v : String,
      getElementById (setInnerHTML (setInnerHTML dom "pricesData" mpLoadingMsg)
        "pricesData" v) "pricesData" = some v := by
    intro v
    refine getElementById_setInnerHTML_self ?_
    rw [isSome_getElementById_setInnerHTML]
    exact hs
  refine ⟨?_, ?_, ?_⟩
  · intro c hc htr
    have hsel : mpCropsSel data = .ok c := by
      simp [mpCropsSel, bind, Except.bind, pure, Except.pure, Functor.map, Except.map, hc, htr]
    refine ⟨hsel, ?_, ?_⟩
    · intro hlen nm html hnm hrender
      have hb : mpBody data now = .ok (some html) := by
        simp [mpBody, bind, Except.bind, pure, Except.pure, Functor.map, Except.map, hsel, hnm, htr, hlen, hrender]
      simp only [loadMarketPrices, hw, hb]
      exact hset html
    · intro hlen nm hnm
      have hb : mpBody data now = .ok none := by
        simp [mpBody, bind, Except.bind, pure, Except.pure, Functor.map, Except.map, hsel, hnm, htr, hlen]
      simp only [loadMarketPrices, hw, hb]
      exact hset mpUnavailableMsg
  · intro c mp hc hf hmp
    simp [mpCropsSel, bind, Except.bind, pure, Except.pure, Functor.map, Except.map, hc, hf, hmp]
  · intro c nm hsel hcond hnm
    have hb : mpBody data now = .ok none := by
      simp [mpBody, bind, Except.bind, pure, Except.pure, Functor.map, Except.map, hsel, hnm, hcond]
    simp only [loadMarketPrices, hw, hb]
    exact hset mpUnavailableMsg

/-- Witness for the amended C6: a truthy-but-empty `crops` array yields
the data-unavailable message, and a truthy non-empty `crops` array is the
selected list. -/
theorem c6_amended_crop_extraction_fallback_witness :
    mpCropsSel mpDataEmptyCrops = .ok (.arr [])
    ∧ getElementById (loadMarketPrices initialGlobals pricesOnlyDom
        (.ok mpDataEmptyCrops) 0).1 "pricesData" = some mpUnavailableMsg
    ∧ mpCropsSel mpDataNoTimestamp = .ok (.arr [wheatCrop]) :=
  ⟨rfl,
   (c6_amended_crop_extraction_fallback initialGlobals pricesOnlyDom
      mpDataEmptyCrops 0 (by decide)).2.2 (.arr []) (.arr []) rfl (by decide) rfl,
   ((c6_amended_crop_extraction_fallback initialGlobals pricesOnlyDom
      mpDataNoTimestamp 0 (by decide)).1 (.arr [wheatCrop]) rfl (by decide)).1⟩

end Krishimitra

namespace Krishimitra

/-!
## Lemmas about the page model and `showService`
-/

/-- After the remove-pass, no content section is marked active. -/
theorem not_activeSection_hideAll (p : Page) (i : Nat) :
    ¬ ActiveSectionAt (hideAllContentSections p) i := by
  rintro ⟨e, hge, hcs, hact⟩
  rw [hideAllContentSections, List.get?_map] at hge
  cases hg : p.get? i with
  | none => rw [hg] at hge; cases hge
  | some e0 =>
    rw [hg] at hge
    have he : e = hideElem e0 := by
      cases hge
      rfl
    subst he
    unfold hideElem at hcs hact
    by_cases h0 : isContentSection e0
    · rw [if_pos h0] at hact
      simp only [classListRemove, List.mem_filter] at hact
      exact absurd hact.2 (by simp)
    · rw [if_neg h0] at hcs
      exact h0 hcs

/-- The remove-pass does not change element ids, so the id lookup is
unchanged. -/
theorem pageIdIdx_hideAll (p : Page) (i : String) :
    pageIdIdx (hideAllContentSections p) i = pageIdIdx p i := by
  induction p with
  | nil => rfl
  | cons e rest ih =>
    have hid : (hideElem e).id = e.id := by
      unfold hideElem
      by_cases h0 : isContentSection e <;> simp [h0]
    simp only [hideAllContentSections, List.map_cons, pageIdIdx, hid]
    rw [← hideAllContentSections, ih]

/-- Adding `active` at position `k` leaves every other position
unchanged. -/
theorem pageAddActive_get_ne (p : Page) :
    ∀ (k i : Nat), i ≠ k → (pageAddActive p k).get? i = p.get? i := by
  induction p with
  | nil =>
    intro k i h
    cases k <;> rfl
  | cons e rest ih =>
    intro k i h
    cases k with
    | zero =>
      cases i with
      | zero => exact absurd rfl h
      | succ n => rfl
    | succ k2 =>
      cases i with
      | zero => rfl
      | succ n =>
        simp only [pageAddActive, List.get?_cons_succ]
        exact ih k2 n (fun hh => h (by rw [hh]))

/-- The id lookup bounds the index: a found index points at an element of
the page whose id matches. -/
theorem pageIdIdx_elem {i : String} :
    ∀ {p : Page} {k : Nat}, pageIdIdx p i = some k →
      ∃ e, p.get? k = some e ∧ e.id = some i := by
  intro p
  induction p with
  | nil => intro k h; cases h
  | cons e rest ih =>
    intro k h
    unfold pageIdIdx at h
    by_cases he : e.id = some i
    · rw [if_pos he] at h
      cases h
      exact ⟨e, rfl, he⟩
    · rw [if_neg he] at h
      cases hr : pageIdIdx rest i with
      | none => rw [hr] at h; cases h
      | some k2 =>
        rw [hr] at h
        cases h
        obtain ⟨e2, hg, hid⟩ := ih hr
        exact ⟨e2, by simpa using hg, hid⟩

/-- C10: after every call to `showService`, at most one content-section
element is marked active; any active content section sits exactly at the
first element whose id is `serviceName + "-content"`; when no such element
exists, nothing is active and no service-data load is triggered; when it
exists, the load is triggered. -/
theorem c10_at_most_one_active_section :
    ∀ (name : String) (p : Page),
      (∀ i j, ActiveSectionAt (showService name p).1 i →
        ActiveSectionAt (showService name p).1 j → i = j)
      ∧ (∀ i, ActiveSectionAt (showService name p).1 i →
          pageIdIdx p (name ++ "-content") = some i)
      ∧ (pageIdIdx p (name ++ "-content") = none →
          (showService name p).2 = false
          ∧ ∀ i, ¬ ActiveSectionAt (showService name p).1 i)
      ∧ (∀ k, pageIdIdx p (name ++ "-content") = some k →
          (showService name p).2 = true) := by
  intro name p
  have hb : ∀ i, ActiveSectionAt (showService name p).1 i →
      pageIdIdx p (name ++ "-content") = some i := by
    intro i hact
    cases hidx : pageIdIdx (hideAllContentSections p) (name ++ "-content") with
    | none =>
      rw [showService, hidx] at hact
      exact absurd hact (not_activeSection_hideAll p i)
    | some k =>
      rw [showService, hidx] at hact
      by_cases hik : i = k
      · subst hik
        rw [← pageIdIdx_hideAll]
        exact hidx
      · obtain ⟨e, hge, hcs, ha⟩ := hact
        rw [pageAddActive_get_ne _ k i hik] at hge
        exact absurd ⟨e, hge, hcs, ha⟩ (not_activeSection_hideAll p i)
  refine ⟨?_, hb, ?_, ?_⟩
  · intro i j hi hj
    have h1 := hb i hi
    have h2 := hb j hj
    rw [h1] at h2
    exact Option.some.inj h2
  · intro hnone
    have hidx : pageIdIdx (hideAllContentSections p) (name ++ "-content") = none := by
      rw [pageIdIdx_hideAll]
      exact hnone
    constructor
    · rw [showService, hidx]
    · intro i hact
      rw [showService, hidx] at hact
      exact absurd hact (not_activeSection_hideAll p i)
  · intro k hk
    have hidx : pageIdIdx (hideAllContentSections p) (name ++ "-content") = some k := by
      rw [pageIdIdx_hideAll]
      exact hk
    rw [showService, hidx]

/-- Witness for C10 on a concrete two-section page. -/
theorem c10_at_most_one_active_section_witness :
    ActiveSectionAt (showService "weather" weatherPage).1 0
    ∧ pageIdIdx weatherPage ("weather" ++ "-content") = some 0
    ∧ (showService "weather" weatherPage).2 = true := by
  have hact : ActiveSectionAt (showService "weather" weatherPage).1 0 :=
    ⟨{ id := some "weather-content", classes := ["content-section", "active"] },
      by decide, by decide, by decide⟩
  exact ⟨hact,
    (c10_at_most_one_active_section "weather" weatherPage).2.1 0 hact,
    (c10_at_most_one_active_section "weather" weatherPage).2.2.2 0 (by decide)⟩

end Krishimitra
